import Mathlib

/-!
Verification development for the pdb-viewer repository.

The embedding models `src/unnamed/part_000` (the `MoleculeView` component and
its `useSceneObjects` hook).  React hook semantics are made explicit:

* `useMemo` caches a value together with its dependency array and recomputes
  only when some dependency differs under JavaScript reference semantics
  (`Object.is`): object dependencies compare by reference, primitive
  dependencies (booleans, numbers, strings) compare by value.  `JsOpt`
  models a dependency of TypeScript type `T | false`: either the literal
  `false` or an object reference carrying a value.
* `useEffect` re-runs (previous cleanup, then new body) exactly when its
  dependency array changed in the same sense.
* Mesh objects are identified by an allocation counter; every call into a
  mesh builder yields a fresh identity, mirroring JavaScript allocation.
* Scheduling (`setTimeout`, `requestAnimationFrame`) is modelled by pending
  callback slots consumed by explicit fire steps; `cancelAnimationFrame` /
  `clearTimeout` empty the slot.

The mesh builders (`makeAtomsMesh`, `makeBondLines`, `makeBackboneLines`,
`makeRibbonMesh`, `makeFlatRibbonMesh`) and the scene loader live in the
external `pdb-parser` package and are not part of this repository; they are
modelled from the spec as pure functions that either produce a fresh
primitive or are absent for missing input data.
-/

namespace PV

/-- Material kind offered by the Common controls: basic, lambert or standard. -/
inductive MaterialKind
  | basic
  | lambert
  | standard
deriving DecidableEq

/-- Representation mode offered by the Common controls. -/
inductive Representation
  | spheres
  | ribbonTube
  | ribbonFlat
deriving DecidableEq

/-- A three.js material as the override code observes it: the `vertexColors`,
`color` and `needsUpdate` properties may each be present or absent
(`typeof mat.vertexColors !== "undefined"`, `mat.color` truthiness). -/
structure Material where
  kind : MaterialKind
  vertexColors : Option Bool
  color : Option Nat
  needsUpdate : Option Bool
deriving DecidableEq

/-- Modelled from the spec: a ParsedScene produced by the external loader.
`ref` is the JavaScript object identity; the `has*` flags say whether the
corresponding external mesh builder succeeds (builders return absent on
failure rather than throwing — `hasRibbon` covers both ribbon builders);
`ribbonParts` is the number of sub-meshes of a successfully built composite
ribbon group. -/
structure MolScene where
  ref : Nat
  hasAtoms : Bool
  hasBonds : Bool
  hasBackbone : Bool
  hasRibbon : Bool
  ribbonParts : Nat
deriving DecidableEq

/-- A renderable mesh primitive: identity (JavaScript reference, from the
allocation counter) plus the single material it owns. -/
structure MeshObj where
  id : Nat
  material : Material
deriving DecidableEq

/-- A sub-mesh of a composite ribbon group: identity plus the number of
materials it owns (`mesh.material` may be a single material or an array). -/
structure CartoonMesh where
  id : Nat
  matCount : Nat
deriving DecidableEq

/-- A composite three.js group holding the ribbon sub-meshes. -/
structure SceneGroup where
  meshes : List CartoonMesh
deriving DecidableEq

/-- A TypeScript value of type `T | false`: the literal `false`, or an object
reference (with its JavaScript identity `r`) carrying value `v`. -/
inductive JsOpt (α : Type)
  | off
  | obj (r : Nat) (v : α)
deriving DecidableEq

/-- The JavaScript reference of a `T | false` value (`none` for `false`),
which is what `Object.is` dependency comparison sees. -/
def JsOpt.jsRef {α : Type} : JsOpt α → Option Nat
  | .off => none
  | .obj r _ => some r

/-- The carried value of a `T | false` value, ignoring object identity. -/
def JsOpt.jsVal {α : Type} : JsOpt α → Option α
  | .off => none
  | .obj _ v => some v

/-- `AtomMeshOptions` of the external builder; fields are optional
(`opts.atoms?.sphereDetail ?? 16` resolves defaults).  Numeric parameters are
modelled as naturals (radius scale in hundredths). -/
structure AtomMeshOptions where
  sphereDetail : Option Nat
  materialKind : Option MaterialKind
  radiusScale : Option Nat
deriving DecidableEq

/-- `BackboneLineOptions` of the external builder (`color ?? 0xffffff`). -/
structure BackboneLineOptions where
  color : Option Nat
deriving DecidableEq

/-- The `SceneBuildOptions` record passed to `useSceneObjects`: each of
`atoms` and `backbone` is either options-object-or-`false`, `bonds` is a
plain boolean. -/
structure SceneBuildOptions where
  atoms : JsOpt AtomMeshOptions
  bonds : Bool
  backbone : JsOpt BackboneLineOptions
deriving DecidableEq

/-- Resolved atom options after the `?? default` fallbacks in
`useSceneObjects`. -/
structure ResolvedAtomOptions where
  sphereDetail : Nat
  materialKind : MaterialKind
  radiusScale : Nat
deriving DecidableEq

/-- Apply the `??` defaults exactly as `useSceneObjects` does:
`sphereDetail ?? 16`, `materialKind ?? "standard"`, `radiusScale ?? 1.0`. -/
def resolveAtomOptions (v : AtomMeshOptions) : ResolvedAtomOptions :=
  { sphereDetail := v.sphereDetail.getD 16
    materialKind := v.materialKind.getD .standard
    radiusScale := v.radiusScale.getD 100 }

/-- Allocate one mesh slot: if the builder succeeds the mesh gets the next
fresh identity from the allocation counter. -/
def takeSlot (present : Bool) (mat : Material) (cnt : Nat) : Option MeshObj × Nat :=
  if present then (some { id := cnt, material := mat }, cnt + 1) else (none, cnt)

/-- Modelled from the spec: the material produced by the external
`makeAtomsMesh` builder carries per-vertex color data (element colors) and a
non-white uniform color, of the requested material kind. -/
def atomBuilderMaterial (o : ResolvedAtomOptions) : Material :=
  { kind := o.materialKind, vertexColors := some true, color := some 255, needsUpdate := some false }

/-- Modelled from the spec: the external `makeAtomsMesh` mesh builder
(from `pdb-parser`, not part of this repository); absent when the scene has
no atom data. -/
def makeAtomsMesh (s : MolScene) (o : ResolvedAtomOptions) (cnt : Nat) : Option MeshObj × Nat :=
  takeSlot s.hasAtoms (atomBuilderMaterial o) cnt

/-- Modelled from the spec: the external `makeBondLines` mesh builder;
absent when the scene has no bond data. -/
def makeBondLines (s : MolScene) (cnt : Nat) : Option MeshObj × Nat :=
  takeSlot s.hasBonds { kind := .basic, vertexColors := some true, color := some 16777215, needsUpdate := some false } cnt

/-- Modelled from the spec: the external `makeBackboneLines` mesh builder;
absent when the scene has no backbone data. -/
def makeBackboneLines (s : MolScene) (color : Nat) (cnt : Nat) : Option MeshObj × Nat :=
  takeSlot s.hasBackbone { kind := .basic, vertexColors := some false, color := some color, needsUpdate := some false } cnt

/-- The uniform-white override applied to the atom material by
`useSceneObjects`: if `vertexColors` is present set it to `false`, if `color`
is present set it to `#ffffff`, if `needsUpdate` is present set it to
`true`. -/
def applyWhiteOverride (m : Material) : Material :=
  let m1 := match m.vertexColors with
    | some _ => { m with vertexColors := some false }
    | none => m
  let m2 := match m1.color with
    | some _ => { m1 with color := some 16777215 }
    | none => m1
  match m2.needsUpdate with
  | some _ => { m2 with needsUpdate := some true }
  | none => m2

/-- The atoms branch of the `useMemo` body: when `opts.atoms !== false`,
invoke `makeAtomsMesh` with resolved defaults and force the flat-white
material override on the result. -/
def atomSlot (s : MolScene) (o : JsOpt AtomMeshOptions) (cnt : Nat) : Option MeshObj × Nat :=
  match o with
  | .off => (none, cnt)
  | .obj _ v =>
      let r := makeAtomsMesh s (resolveAtomOptions v) cnt
      (r.1.map (fun m => { m with material := applyWhiteOverride m.material }), r.2)

/-- The bonds branch of the `useMemo` body: when `opts.bonds` is true,
invoke `makeBondLines`. -/
def bondSlot (s : MolScene) (b : Bool) (cnt : Nat) : Option MeshObj × Nat :=
  if b then makeBondLines s cnt else (none, cnt)

/-- The backbone branch of the `useMemo` body: when `opts.backbone !== false`,
invoke `makeBackboneLines` with `color ?? 0xffffff`. -/
def backboneSlot (s : MolScene) (o : JsOpt BackboneLineOptions) (cnt : Nat) : Option MeshObj × Nat :=
  match o with
  | .off => (none, cnt)
  | .obj _ v => makeBackboneLines s (v.color.getD 16777215) cnt

/-- The primitive set produced by one evaluation of the `useMemo` body. -/
structure Objects where
  atoms : Option MeshObj
  bonds : Option MeshObj
  backbone : Option MeshObj
deriving DecidableEq

/-- The `useMemo` body of `useSceneObjects`: with a null scene return the
empty set, otherwise evaluate the three gated builder branches in order,
threading the allocation counter. -/
def buildObjects (scene : Option MolScene) (o : SceneBuildOptions) (cnt : Nat) : Objects × Nat :=
  match scene with
  | none => ({ atoms := none, bonds := none, backbone := none }, cnt)
  | some s =>
      let a := atomSlot s o.atoms cnt
      let b := bondSlot s o.bonds a.2
      let k := backboneSlot s o.backbone b.2
      ({ atoms := a.1, bonds := b.1, backbone := k.1 }, k.2)

/-- The identities of the primitives present in a set (atoms, bonds,
backbone order). -/
def Objects.ids (o : Objects) : List Nat :=
  [o.atoms.map MeshObj.id, o.bonds.map MeshObj.id, o.backbone.map MeshObj.id].filterMap (fun x => x)

/-- The dependency array of the cleanup `useEffect` in `useSceneObjects`
(`[objects.atoms, objects.bonds, objects.backbone]`) under `Object.is`:
object references, `undefined` for absent primitives. -/
def effKey (o : Objects) : Option Nat × Option Nat × Option Nat :=
  (o.atoms.map MeshObj.id, o.bonds.map MeshObj.id, o.backbone.map MeshObj.id)

/-- Resource events: creation of a primitive owning `matCount` materials,
disposal of its geometry, disposal of one of its materials. -/
inductive Event
  | create (id matCount : Nat)
  | disposeGeom (id : Nat)
  | disposeMat (id slot : Nat)
deriving DecidableEq

/-- Creation events for the primitives of a set (single-material meshes). -/
def createEvents (o : Objects) : List Event :=
  o.ids.map (fun i => Event.create i 1)

/-- The cleanup closure of the `useSceneObjects` effect: dispose geometry and
material of every primitive it captured (`?.dispose()` skips absent ones). -/
def disposeEvents (o : Objects) : List Event :=
  o.ids.flatMap (fun i => [Event.disposeGeom i, Event.disposeMat i 0])

/-- The `useMemo` dependency array `[scene, opts.atoms, opts.bonds,
opts.backbone]` as `Object.is` sees it: scene reference, atoms
reference-or-`false`, bonds boolean, backbone reference-or-`false`. -/
def depsOf (scene : Option MolScene) (o : SceneBuildOptions) : Option Nat × Option Nat × Bool × Option Nat :=
  (scene.map MolScene.ref, o.atoms.jsRef, o.bonds, o.backbone.jsRef)

/-- The memoization key as the spec describes it: scene identity,
atoms-options value, bonds-enabled flag, backbone-options value — options
compared by value, not by object reference. -/
def specValueKey (scene : Option MolScene) (o : SceneBuildOptions) :
    Option Nat × Option AtomMeshOptions × Bool × Option BackboneLineOptions :=
  (scene.map MolScene.ref, o.atoms.jsVal, o.bonds, o.backbone.jsVal)

/-- Persistent state of the `useSceneObjects` hook across render passes:
the `useMemo` cache (dependency array plus cached value), the registered
effect closure (the objects its cleanup would dispose), and the allocation
counter. -/
structure HookState where
  memo : Option ((Option Nat × Option Nat × Bool × Option Nat) × Objects)
  reg : Option Objects
  cnt : Nat
deriving DecidableEq

/-- Hook state at mount: empty memo cache, no registered effect. -/
def initHookState : HookState :=
  { memo := none, reg := none, cnt := 0 }

/-- One render pass of `useSceneObjects`: consult the memo cache under
`Object.is` dependency comparison, rebuild on miss, then commit the effect —
if the effect dependencies (the three object references) changed, run the
previous cleanup (disposing its captured primitives) and register the new
closure.  Returns the new state, the returned objects, and the resource
events of this pass. -/
def renderHook (s : HookState) (scene : Option MolScene) (o : SceneBuildOptions) :
    HookState × Objects × List Event :=
  let d := depsOf scene o
  let m : Objects × Nat × List Event :=
    match s.memo with
    | some p =>
        if p.1 = d then (p.2, s.cnt, [])
        else
          let r := buildObjects scene o s.cnt
          (r.1, r.2, createEvents r.1)
    | none =>
        let r := buildObjects scene o s.cnt
        (r.1, r.2, createEvents r.1)
  let e : Option Objects × List Event :=
    match s.reg with
    | none => (some m.1, [])
    | some old =>
        if effKey old = effKey m.1 then (some old, [])
        else (some m.1, disposeEvents old)
  ({ memo := some (d, m.1), reg := e.1, cnt := m.2.1 }, m.1, m.2.2 ++ e.2)

/-- Run a sequence of render passes, accumulating resource events. -/
def runHook (s : HookState) (l : List (Option MolScene × SceneBuildOptions)) :
    HookState × List Event :=
  l.foldl (fun acc inp =>
    let r := renderHook acc.1 inp.1 inp.2
    (r.1, acc.2 ++ r.2.2)) (s, [])

/-- Unmount: the registered effect cleanup runs one final time. -/
def hookUnmount (s : HookState) : List Event :=
  match s.reg with
  | none => []
  | some o => disposeEvents o

/-- The primitive identities currently owned by the registered effect
closure (the ones its cleanup would dispose). -/
def liveIds (s : HookState) : List Nat :=
  match s.reg with
  | none => []
  | some o => o.ids

/-- Identities recorded by creation events. -/
def createdIds (l : List Event) : List Nat :=
  l.filterMap (fun e => match e with | .create i _ => some i | _ => none)

/-- Identities recorded by geometry-disposal events. -/
def dGeomIds (l : List Event) : List Nat :=
  l.filterMap (fun e => match e with | .disposeGeom i => some i | _ => none)

/-- (identity, slot) pairs recorded by material-disposal events. -/
def dMatPairs (l : List Event) : List (Nat × Nat) :=
  l.filterMap (fun e => match e with | .disposeMat i k => some (i, k) | _ => none)

/-- (identity, slot) pairs owed by creation events: one per material slot of
each created primitive. -/
def createdMatPairs (l : List Event) : List (Nat × Nat) :=
  l.flatMap (fun e => match e with
    | .create i mc => (List.range mc).map (fun k => (i, k))
    | _ => [])

/-! ### View-level derivation: controls, build options, ribbon group, display -/

/-- The user-facing control values of `MoleculeView` (Common, Overlays,
Spheres and Ribbon panels).  Numeric values are modelled as naturals
(radius scale and thickness in hundredths). -/
structure Controls where
  representation : Representation
  materialKind : MaterialKind
  background : Nat
  overlayAtoms : Bool
  overlayBonds : Bool
  overlayBackbone : Bool
  sphereDetail : Nat
  radiusScale : Nat
  thickness : Nat
deriving DecidableEq

/-- The `SceneBuildOptions` literal `MoleculeView` passes to
`useSceneObjects`: atoms only when the atoms overlay is on and the
representation is spheres, bonds from the bonds overlay alone, backbone only
when the backbone overlay is on and the representation is spheres.  The
option objects are fresh literals allocated on every render pass;
`freshRef` (and `freshRef + 1`) are their JavaScript identities. -/
def sceneBuildOptsOf (c : Controls) (freshRef : Nat) : SceneBuildOptions :=
  { atoms :=
      if c.overlayAtoms ∧ c.representation = .spheres then
        JsOpt.obj freshRef
          { sphereDetail := some c.sphereDetail
            materialKind := some c.materialKind
            radiusScale := some c.radiusScale }
      else JsOpt.off
    bonds := c.overlayBonds
    backbone :=
      if c.overlayBackbone ∧ c.representation = .spheres then
        JsOpt.obj (freshRef + 1) { color := none }
      else JsOpt.off }

/-- Modelled from the spec: the external `makeRibbonMesh` builder returns a
composite group of `ribbonParts` sub-meshes, each owning one material — or
is absent on failure for missing ribbon input data. -/
def makeRibbonMesh (s : MolScene) (_k : MaterialKind) (cnt : Nat) : Option SceneGroup × Nat :=
  if s.hasRibbon then
    (some { meshes := (List.range s.ribbonParts).map (fun j => { id := cnt + j, matCount := 1 }) },
     cnt + s.ribbonParts)
  else (none, cnt)

/-- Modelled from the spec: the external `makeFlatRibbonMesh` builder returns
a composite group of `ribbonParts` sub-meshes, each owning an array of two
materials (double-sided flat ribbon) — or is absent on failure for missing
ribbon input data. -/
def makeFlatRibbonMesh (s : MolScene) (_k : MaterialKind) (_th : Nat) (cnt : Nat) :
    Option SceneGroup × Nat :=
  if s.hasRibbon then
    (some { meshes := (List.range s.ribbonParts).map (fun j => { id := cnt + j, matCount := 2 }) },
     cnt + s.ribbonParts)
  else (none, cnt)

/-- The cartoon `useMemo` body of `MoleculeView`: null scene gives null;
`ribbon-tube` returns the tube ribbon builder's result, `ribbon-flat` the
flat ribbon builder's result (with the thickness control) — absent when the
builder fails — and any other representation gives null. -/
def cartoonOf (scene : Option MolScene) (c : Controls) (cnt : Nat) : Option SceneGroup × Nat :=
  match scene with
  | none => (none, cnt)
  | some s =>
      if c.representation = .ribbonTube then
        makeRibbonMesh s c.materialKind cnt
      else if c.representation = .ribbonFlat then
        makeFlatRibbonMesh s c.materialKind c.thickness cnt
      else (none, cnt)

/-- The cartoon `useMemo` dependency array `[scene,
common.representation, common.materialKind, ribbon.thickness]` under
`Object.is`: the scene reference plus value-compared primitives. -/
structure CartoonDeps where
  sceneRef : Option Nat
  representation : Representation
  materialKind : MaterialKind
  thickness : Nat
deriving DecidableEq

/-- Extract the cartoon memo dependencies from the current inputs. -/
def cartoonDepsOf (scene : Option MolScene) (c : Controls) : CartoonDeps :=
  { sceneRef := scene.map MolScene.ref
    representation := c.representation
    materialKind := c.materialKind
    thickness := c.thickness }

/-- Mesh identities of a composite group. -/
def SceneGroup.ids (g : SceneGroup) : List Nat :=
  g.meshes.map CartoonMesh.id

/-- Creation events of a composite group: one per sub-mesh, recording its
material count. -/
def groupCreateEvents (g : SceneGroup) : List Event :=
  g.meshes.map (fun m => Event.create m.id m.matCount)

/-- The cartoon cleanup effect: traverse the group and, for every mesh,
dispose its geometry and every material it owns (single material or
array). -/
def groupDisposeEvents (g : SceneGroup) : List Event :=
  g.meshes.flatMap (fun m =>
    Event.disposeGeom m.id :: (List.range m.matCount).map (fun k => Event.disposeMat m.id k))

/-- Creation events for an optional cartoon group. -/
def cartCreateEvents (c : Option SceneGroup) : List Event :=
  match c with
  | none => []
  | some g => groupCreateEvents g

/-- Cleanup events for an optional cartoon group (`if (!cartoon) return`). -/
def cartDisposeEvents (c : Option SceneGroup) : List Event :=
  match c with
  | none => []
  | some g => groupDisposeEvents g

/-- Persistent state of the cartoon memo/effect pair across render passes. -/
structure CartoonState where
  memo : Option (CartoonDeps × Option SceneGroup)
  reg : Option (Option SceneGroup)
  cnt : Nat
deriving DecidableEq

/-- Cartoon state at mount. -/
def initCartoonState : CartoonState :=
  { memo := none, reg := none, cnt := 0 }

/-- One render pass of the cartoon memo and its disposal effect (dependency
array `[cartoon]`). -/
def renderCartoon (s : CartoonState) (scene : Option MolScene) (c : Controls) :
    CartoonState × Option SceneGroup × List Event :=
  let d := cartoonDepsOf scene c
  let m : Option SceneGroup × Nat × List Event :=
    match s.memo with
    | some p =>
        if p.1 = d then (p.2, s.cnt, [])
        else
          let r := cartoonOf scene c s.cnt
          (r.1, r.2, cartCreateEvents r.1)
    | none =>
        let r := cartoonOf scene c s.cnt
        (r.1, r.2, cartCreateEvents r.1)
  let e : Option (Option SceneGroup) × List Event :=
    match s.reg with
    | none => (some m.1, [])
    | some old =>
        if old = m.1 then (some old, [])
        else (some m.1, cartDisposeEvents old)
  ({ memo := some (d, m.1), reg := e.1, cnt := m.2.1 }, m.1, m.2.2 ++ e.2)

/-- Run a sequence of cartoon render passes, accumulating resource events. -/
def runCartoon (s : CartoonState) (l : List (Option MolScene × Controls)) :
    CartoonState × List Event :=
  l.foldl (fun acc inp =>
    let r := renderCartoon acc.1 inp.1 inp.2
    (r.1, acc.2 ++ r.2.2)) (s, [])

/-- Unmount: the registered cartoon cleanup runs one final time. -/
def cartoonUnmount (s : CartoonState) : List Event :=
  match s.reg with
  | none => []
  | some old => cartDisposeEvents old

/-- Mesh identities owned by the registered cartoon cleanup. -/
def cartoonLiveIds (s : CartoonState) : List Nat :=
  match s.reg with
  | none => []
  | some none => []
  | some (some g) => g.ids

/-- (identity, slot) material pairs owed by a list of cartoon meshes. -/
def meshPairs (ms : List CartoonMesh) : List (Nat × Nat) :=
  ms.flatMap (fun m => (List.range m.matCount).map (fun k => (m.id, k)))

/-- (identity, slot) material pairs owned by the registered cartoon
cleanup. -/
def cartoonLivePairs (s : CartoonState) : List (Nat × Nat) :=
  match s.reg with
  | none => []
  | some none => []
  | some (some g) => meshPairs g.meshes

/-- What the JSX hands to the renderer. -/
structure Displayed where
  cartoon : Option SceneGroup
  atoms : Option MeshObj
  bonds : Option MeshObj
  backbone : Option MeshObj
deriving DecidableEq

/-- The content-group JSX of `MoleculeView`: in spheres mode display the
atom, bond and backbone primitives that exist; in a ribbon mode, when the
cartoon group exists, display it plus the bond overlay (when its toggle is
on and the primitive exists) and the backbone overlay (likewise). -/
def displayedOf (c : Controls) (cart : Option SceneGroup) (objs : Objects) : Displayed :=
  if c.representation = .spheres then
    { cartoon := none, atoms := objs.atoms, bonds := objs.bonds, backbone := objs.backbone }
  else
    match cart with
    | none => { cartoon := none, atoms := none, bonds := none, backbone := none }
    | some g =>
        { cartoon := some g
          atoms := none
          bonds := if c.overlayBonds then objs.bonds else none
          backbone := if c.overlayBackbone then objs.backbone else none }

/-! ### Camera-fit protocol -/

/-- The dependency array `[scene, sourceUrl, loading, api]` of the reload-fit
effect under `Object.is`: scene reference, source string, loading flag,
bounds-api reference. -/
structure ReloadDeps where
  scene : Option Nat
  sourceUrl : String
  loading : Bool
  api : Nat
deriving DecidableEq

/-- A full view snapshot at a render pass: the reload-effect inputs plus the
control values (which the fit effects do not depend on). -/
structure ViewSnapshot where
  scene : Option Nat
  sourceUrl : String
  loading : Bool
  api : Nat
  controls : Controls
deriving DecidableEq

/-- The reload-fit effect dependencies of a snapshot. -/
def reloadDepsOf (v : ViewSnapshot) : ReloadDeps :=
  { scene := v.scene, sourceUrl := v.sourceUrl, loading := v.loading, api := v.api }

/-- Two snapshots differing only in control values (material,
representation, overlay toggles, numeric parameters): scene, source,
loading state and bounds api are unchanged. -/
def optionOnly (v w : ViewSnapshot) : Prop :=
  w.scene = v.scene ∧ w.sourceUrl = v.sourceUrl ∧ w.loading = v.loading ∧ w.api = v.api

/-- Progress of the pending reload-fit callback chain: `waitingFirstRaf`
after the effect scheduled the first animation frame, `waitingDoFit` once
`doFit` is scheduled (second frame, or a child-presence retry frame). -/
inductive ReloadStage
  | waitingFirstRaf
  | waitingDoFit
deriving DecidableEq

/-- A pending reload-fit callback with the source and api its closure
captured. -/
structure ReloadCb where
  stage : ReloadStage
  src : String
  api : Nat
deriving DecidableEq

/-- A pending initial-fit timeout with the api its closure captured. -/
structure InitCb where
  api : Nat
deriving DecidableEq

/-- Observable fit-controller events. -/
inductive FEvent
  | initFitAttempt (success : Bool)
  | scheduledReload (src : String)
  | rescheduledChildWait (src : String)
  | meshBoundsRefreshed (meshId : Nat)
  | reloadFitAttempt (src : String) (scopedToRoot success : Bool)
deriving DecidableEq

/-- State of the camera-fit controller of `MoleculeView`: the `did` ref, the
`lastFittedSource` ref, the previously seen dependency arrays of the two fit
effects, the pending timeout and pending animation-frame callback, the
camera pose (bumped by each successful fit), and the event log. -/
structure FitState where
  didInitial : Bool
  lastFitted : Option String
  prevInitDeps : Option Nat
  prevReloadDeps : Option ReloadDeps
  pendingInit : Option InitCb
  pendingReload : Option ReloadCb
  cameraPose : Nat
  log : List FEvent
deriving DecidableEq

/-- Fit-controller state at mount. -/
def initFitState : FitState :=
  { didInitial := false, lastFitted := none, prevInitDeps := none,
    prevReloadDeps := none, pendingInit := none, pendingReload := none,
    cameraPose := 0, log := [] }

/-- Inputs driving the fit controller: a committed render pass with the
current effect dependencies; the pending initial-fit timeout firing (with
whether `api.refresh().fit()` throws); a pending animation frame firing
(with the content subtree — `none` when `contentRef.current` is null,
otherwise the mesh identities of its children — and whether the fit
throws); unmount. -/
inductive FInput
  | render (d : ReloadDeps)
  | fireInitTimeout (fails : Bool)
  | fireReloadRaf (root : Option (List Nat)) (fails : Bool)
  | unmount
deriving DecidableEq

/-- One step of the fit controller.

`render`: each effect whose dependency array changed runs its cleanup
(cancelling its pending callback) and then its body — the initial-fit effect
schedules the deferred timeout unless `did.current` is already set; the
reload effect returns early when the scene is absent, loading is in
progress, or `lastFittedSource.current === sourceUrl`, and otherwise
schedules the first animation frame.

`fireInitTimeout`: the timeout body attempts `api.refresh().fit()` inside
`try/catch` and then sets `did.current = true` regardless of the outcome.

`fireReloadRaf`: the first frame only schedules `doFit` on the next frame;
`doFit` with a present content root and no children reschedules itself on
the next frame; with children it refreshes each mesh's bounds, fits scoped
to the content root, and on success records the fitted source; with a null
root it fits unscoped.  A throwing fit is swallowed and skips the record.

`unmount`: both effect cleanups run, cancelling any pending callbacks. -/
def fitStep (s : FitState) (i : FInput) : FitState :=
  match i with
  | .render d =>
      let s1 :=
        if s.prevInitDeps = some d.api then s
        else
          { s with prevInitDeps := some d.api
                   pendingInit := if s.didInitial then none else some { api := d.api } }
      if s1.prevReloadDeps = some d then s1
      else
        if d.scene = none ∨ d.loading = true then
          { s1 with prevReloadDeps := some d, pendingReload := none }
        else if s1.lastFitted = some d.sourceUrl then
          { s1 with prevReloadDeps := some d, pendingReload := none }
        else
          { s1 with prevReloadDeps := some d
                    pendingReload := some { stage := .waitingFirstRaf, src := d.sourceUrl, api := d.api }
                    log := s1.log ++ [FEvent.scheduledReload d.sourceUrl] }
  | .fireInitTimeout fails =>
      match s.pendingInit with
      | none => s
      | some _ =>
          { s with pendingInit := none
                   didInitial := true
                   cameraPose := if fails then s.cameraPose else s.cameraPose + 1
                   log := s.log ++ [FEvent.initFitAttempt (!fails)] }
  | .fireReloadRaf root fails =>
      match s.pendingReload with
      | none => s
      | some cb =>
          match cb.stage with
          | .waitingFirstRaf =>
              { s with pendingReload := some { stage := .waitingDoFit, src := cb.src, api := cb.api } }
          | .waitingDoFit =>
              match root with
              | some ms =>
                  if ms.length = 0 then
                    { s with log := s.log ++ [FEvent.rescheduledChildWait cb.src] }
                  else if fails then
                    { s with pendingReload := none
                             log := s.log ++ ms.map FEvent.meshBoundsRefreshed
                                          ++ [FEvent.reloadFitAttempt cb.src true false] }
                  else
                    { s with pendingReload := none
                             lastFitted := some cb.src
                             cameraPose := s.cameraPose + 1
                             log := s.log ++ ms.map FEvent.meshBoundsRefreshed
                                          ++ [FEvent.reloadFitAttempt cb.src true true] }
              | none =>
                  if fails then
                    { s with pendingReload := none
                             log := s.log ++ [FEvent.reloadFitAttempt cb.src false false] }
                  else
                    { s with pendingReload := none
                             lastFitted := some cb.src
                             cameraPose := s.cameraPose + 1
                             log := s.log ++ [FEvent.reloadFitAttempt cb.src false true] }
  | .unmount =>
      { s with pendingInit := none, pendingReload := none }

/-- Run a sequence of fit-controller inputs. -/
def runFit (s : FitState) (l : List FInput) : FitState :=
  l.foldl fitStep s

/-- Number of initial-fit attempts recorded in a log. -/
def countInitAttempts (l : List FEvent) : Nat :=
  l.countP (fun e => match e with | .initFitAttempt _ => true | _ => false)

/-- Number of reload-fit attempts recorded in a log. -/
def countReloadAttempts (l : List FEvent) : Nat :=
  l.countP (fun e => match e with | .reloadFitAttempt _ _ _ => true | _ => false)

/-- An input that can occur during a phase of option-only changes: a render
pass of a snapshot that differs from `v` only in control values, or a stray
scheduler tick. -/
def okOptionInput (v : ViewSnapshot) (x : FInput) : Prop :=
  (∃ w, optionOnly v w ∧ x = FInput.render (reloadDepsOf w)) ∨
  (∃ b, x = FInput.fireInitTimeout b) ∨
  (∃ r b, x = FInput.fireReloadRaf r b)

/-! ### Well-formedness and aggregate logs -/

/-- Mesh identities of an optional cartoon group. -/
def optGroupIds (g : Option SceneGroup) : List Nat :=
  match g with
  | none => []
  | some g => g.ids

/-- (identity, slot) material pairs owed by an optional cartoon group. -/
def optGroupPairs (g : Option SceneGroup) : List (Nat × Nat) :=
  match g with
  | none => []
  | some g => meshPairs g.meshes

/-- Well-formedness of a `useSceneObjects` hook state, true of every state
reachable from mount: the registered closure owns only identities below the
allocation counter, without duplicates, and the memo cache and the
registered effect closure agree (the effect dependency array is exactly the
memoized objects). -/
def HookWF (s : HookState) : Prop :=
  (∀ i ∈ liveIds s, i < s.cnt) ∧ (liveIds s).Nodup ∧
  (match s.memo, s.reg with
   | none, none => True
   | some p, some w => effKey w = effKey p.2 ∧ ∀ i ∈ p.2.ids, i < s.cnt
   | _, _ => False)

/-- Trace invariant tying a hook state to the event log produced so far:
geometry disposals plus currently live identities are a permutation of
created identities; created identities are distinct and below the counter;
material events mirror geometry events slot-for-slot (hook primitives own a
single material). -/
def HookInv (s : HookState) (log : List Event) : Prop :=
  HookWF s
  ∧ (dGeomIds log ++ liveIds s).Perm (createdIds log)
  ∧ (createdIds log).Nodup
  ∧ (∀ i ∈ createdIds log, i < s.cnt)
  ∧ dMatPairs log = (dGeomIds log).map (fun i => (i, 0))
  ∧ createdMatPairs log = (createdIds log).map (fun i => (i, 0))

/-- Well-formedness of a cartoon state, true of every state reachable from
mount. -/
def CartoonWF (s : CartoonState) : Prop :=
  (∀ i ∈ cartoonLiveIds s, i < s.cnt) ∧ (cartoonLiveIds s).Nodup ∧
  (match s.memo, s.reg with
   | none, none => True
   | some p, some w => w = p.2 ∧ ∀ i ∈ optGroupIds p.2, i < s.cnt
   | _, _ => False)

/-- Trace invariant for the cartoon memo/effect pair. -/
def CartoonInv (s : CartoonState) (log : List Event) : Prop :=
  CartoonWF s
  ∧ (dGeomIds log ++ cartoonLiveIds s).Perm (createdIds log)
  ∧ (dMatPairs log ++ cartoonLivePairs s).Perm (createdMatPairs log)
  ∧ (createdIds log).Nodup
  ∧ (createdMatPairs log).Nodup
  ∧ (∀ i ∈ createdIds log, i < s.cnt)
  ∧ (∀ q ∈ createdMatPairs log, q.1 < s.cnt)

/-- Full resource log of a hook session: the render passes followed by the
unmount cleanup. -/
def hookFullLog (l : List (Option MolScene × SceneBuildOptions)) : List Event :=
  (runHook initHookState l).2 ++ hookUnmount (runHook initHookState l).1

/-- Full resource log of a cartoon session. -/
def cartoonFullLog (l : List (Option MolScene × Controls)) : List Event :=
  (runCartoon initCartoonState l).2 ++ cartoonUnmount (runCartoon initCartoonState l).1

/-! ### Concrete inputs used to evaluate the code on the C1 failing input -/

/-- A parsed scene on which all the mesh builders succeed. -/
def demoScene : MolScene :=
  { ref := 7, hasAtoms := true, hasBonds := true, hasBackbone := true, hasRibbon := true,
    ribbonParts := 2 }

/-- Control values: spheres representation, all overlays on, default
numeric parameters — unchanged between the two passes below. -/
def demoControls : Controls :=
  { representation := .spheres, materialKind := .standard, background := 1118481,
    overlayAtoms := true, overlayBonds := true, overlayBackbone := true,
    sphereDetail := 16, radiusScale := 30, thickness := 18 }

/-- First render pass: the option literals get identities 100/101. -/
def c1Pass1 : HookState × Objects × List Event :=
  renderHook initHookState (some demoScene) (sceneBuildOptsOf demoControls 100)

/-- Second render pass with identical control values: the view allocates
fresh option literals, identities 200/201. -/
def c1Pass2 : HookState × Objects × List Event :=
  renderHook c1Pass1.1 (some demoScene) (sceneBuildOptsOf demoControls 200)

/-- Reload-effect dependencies of a loaded source "a". -/
def demoDepsA : ReloadDeps :=
  { scene := some 7, sourceUrl := "a", loading := false, api := 3 }

/-- Reload-effect dependencies of a different source "b". -/
def demoDepsB : ReloadDeps :=
  { scene := some 9, sourceUrl := "b", loading := false, api := 3 }

/-- A view snapshot of source "a". -/
def demoSnapshot : ViewSnapshot :=
  { scene := some 7, sourceUrl := "a", loading := false, api := 3, controls := demoControls }

/-- A settled fit state after source "a" was fitted: nothing pending, the
fitted source recorded, both effect dependency arrays seen. -/
def demoSettled : FitState :=
  { didInitial := true, lastFitted := some "a", prevInitDeps := some 3,
    prevReloadDeps := some demoDepsA, pendingInit := none, pendingReload := none,
    cameraPose := 2, log := [] }

/-- A fit state with the reload `doFit` callback pending for source "b". -/
def demoPendingDoFit : FitState :=
  { didInitial := true, lastFitted := some "a", prevInitDeps := some 3,
    prevReloadDeps := some demoDepsB, pendingInit := none,
    pendingReload := some { stage := .waitingDoFit, src := "b", api := 3 },
    cameraPose := 2, log := [] }

/-- A fit state with the first reload animation frame pending for "b". -/
def demoPendingRaf1 : FitState :=
  { didInitial := true, lastFitted := some "a", prevInitDeps := some 3,
    prevReloadDeps := some demoDepsB, pendingInit := none,
    pendingReload := some { stage := .waitingFirstRaf, src := "b", api := 3 },
    cameraPose := 2, log := [] }

/-- A freshly mounted fit state with the initial-fit timeout pending. -/
def demoPendingInit : FitState :=
  { didInitial := false, lastFitted := none, prevInitDeps := some 3,
    prevReloadDeps := none, pendingInit := some { api := 3 }, pendingReload := none,
    cameraPose := 0, log := [] }

/-! ### Theorems -/

/-- C7: for every parsed scene and every enabled atoms option value, the
atom primitive constructed by `useSceneObjects` has per-vertex colors
disabled and its material color set to uniform white — for every material
kind, since the option value (hence its `materialKind` field) is universally
quantified. -/
theorem atoms_material_forced_white (s : MolScene) (r : Nat) (v : AtomMeshOptions)
    (b : Bool) (bk : JsOpt BackboneLineOptions) (cnt : Nat) (a : MeshObj)
    (h : (buildObjects (some s) { atoms := JsOpt.obj r v, bonds := b, backbone := bk } cnt).1.atoms = some a) :
    a.material.vertexColors = some false ∧ a.material.color = some 16777215 := by
  by_cases hA : s.hasAtoms
  · simp [buildObjects, atomSlot, makeAtomsMesh, takeSlot, hA, atomBuilderMaterial,
      applyWhiteOverride] at h
    subst h
    exact ⟨rfl, rfl⟩
  · simp [buildObjects, atomSlot, makeAtomsMesh, takeSlot, hA] at h

/-- Witness for C7 at a concrete scene and option value. -/
theorem atoms_material_forced_white_w :
    (buildObjects (some demoScene)
        { atoms := JsOpt.obj 5 { sphereDetail := none, materialKind := some .lambert, radiusScale := none },
          bonds := true, backbone := JsOpt.off } 0).1.atoms
      = some { id := 0, material := { kind := .lambert, vertexColors := some false,
                                      color := some 16777215, needsUpdate := some true } }
    ∧ (({ id := 0, material := { kind := .lambert, vertexColors := some false,
                                 color := some 16777215, needsUpdate := some true } } : MeshObj)).material.vertexColors = some false
    ∧ (({ id := 0, material := { kind := .lambert, vertexColors := some false,
                                 color := some 16777215, needsUpdate := some true } } : MeshObj)).material.color = some 16777215 := by
  refine ⟨by decide, ?_⟩
  exact atoms_material_forced_white demoScene 5
    { sphereDetail := none, materialKind := some .lambert, radiusScale := none }
    true JsOpt.off 0 _ (by decide)

/-- C8: representation-mode gating of the derived build options — atom and
backbone primitives are produced by the builders only in spheres
representation; the ribbon group exists only for a non-null scene in a
ribbon representation (so it is null in every other case) and is present
whenever such a scene carries ribbon data; and bonds are requested from the
bonds toggle alone, in every representation. -/
theorem representation_gating (c : Controls) (r cnt cnt2 : Nat) (scene : Option MolScene) :
    ((buildObjects scene (sceneBuildOptsOf c r) cnt).1.atoms ≠ none → c.representation = .spheres)
    ∧ ((buildObjects scene (sceneBuildOptsOf c r) cnt).1.backbone ≠ none → c.representation = .spheres)
    ∧ ((buildObjects scene (sceneBuildOptsOf c r) cnt).1.bonds ≠ none → c.overlayBonds = true)
    ∧ (∀ s, scene = some s → s.hasBonds = true → c.overlayBonds = true →
        (buildObjects scene (sceneBuildOptsOf c r) cnt).1.bonds ≠ none)
    ∧ ((cartoonOf scene c cnt2).1 ≠ none →
        scene ≠ none ∧ (c.representation = .ribbonTube ∨ c.representation = .ribbonFlat))
    ∧ (∀ s, scene = some s → s.hasRibbon = true →
        (c.representation = .ribbonTube ∨ c.representation = .ribbonFlat) →
        (cartoonOf scene c cnt2).1 ≠ none) := by
  refine ⟨?_, ?_, ?_, ?_, ?_, ?_⟩
  · intro h
    by_contra hrep
    cases scene with
    | none => simp [buildObjects] at h
    | some s => simp [buildObjects, sceneBuildOptsOf, hrep, atomSlot] at h
  · intro h
    by_contra hrep
    cases scene with
    | none => simp [buildObjects] at h
    | some s => simp [buildObjects, sceneBuildOptsOf, hrep, backboneSlot] at h
  · intro h
    by_cases hb : c.overlayBonds
    · exact hb
    · exfalso
      cases scene with
      | none => simp [buildObjects] at h
      | some s => simp [buildObjects, sceneBuildOptsOf, hb, bondSlot] at h
  · intro s hs hbonds hb
    subst hs
    simp [buildObjects, sceneBuildOptsOf, hb, bondSlot, makeBondLines, takeSlot, hbonds]
  · intro h
    cases scene with
    | none => simp [cartoonOf] at h
    | some s =>
        refine ⟨by simp, ?_⟩
        by_cases ht : c.representation = .ribbonTube
        · exact Or.inl ht
        · by_cases hf : c.representation = .ribbonFlat
          · exact Or.inr hf
          · exfalso
            simp [cartoonOf, ht, hf] at h
  · intro s hs hrb hrep
    subst hs
    rcases hrep with ht | hf
    · simp [cartoonOf, ht, makeRibbonMesh, hrb]
    · have ht : c.representation ≠ .ribbonTube := by rw [hf]; simp
      simp [cartoonOf, ht, hf, makeFlatRibbonMesh, hrb]

/-- Witness for C8: at a ribbon-flat configuration with bond and ribbon
data, the bonds primitive is built and the ribbon group is present. -/
theorem representation_gating_w :
    (buildObjects (some demoScene)
        (sceneBuildOptsOf { demoControls with representation := .ribbonFlat } 100) 0).1.bonds ≠ none
    ∧ (cartoonOf (some demoScene) { demoControls with representation := .ribbonFlat } 50).1
        ≠ none := by
  have h := representation_gating { demoControls with representation := .ribbonFlat } 100 0 50
    (some demoScene)
  exact ⟨h.2.2.2.1 demoScene rfl (by decide) (by decide),
         h.2.2.2.2.2 demoScene rfl (by decide) (Or.inr rfl)⟩

/-- C10: in ribbon representations the backbone overlay is neither built nor
displayed, regardless of its toggle and of which cartoon group the display
branch checks, while the bonds overlay is requested from its toggle alone
and is displayed when its toggle is on and the scene provides bond and
ribbon data (an absent builder primitive is nothing to display). -/
theorem ribbon_mode_overlays (c : Controls) (scene : Option MolScene) (r cnt cnt2 : Nat)
    (h : c.representation = .ribbonTube ∨ c.representation = .ribbonFlat) :
    (sceneBuildOptsOf c r).backbone = JsOpt.off
    ∧ (buildObjects scene (sceneBuildOptsOf c r) cnt).1.backbone = none
    ∧ (∀ g : Option SceneGroup,
        (displayedOf c g (buildObjects scene (sceneBuildOptsOf c r) cnt).1).backbone = none)
    ∧ ((sceneBuildOptsOf c r).bonds = c.overlayBonds)
    ∧ (∀ s, scene = some s → c.overlayBonds = true → s.hasBonds = true → s.hasRibbon = true →
        (displayedOf c ((cartoonOf scene c cnt2).1)
          (buildObjects scene (sceneBuildOptsOf c r) cnt).1).bonds ≠ none) := by
  have hrep : c.representation ≠ .spheres := by
    rcases h with h | h <;> simp [h]
  have hbk : (sceneBuildOptsOf c r).backbone = JsOpt.off := by
    simp [sceneBuildOptsOf, hrep]
  have hnone : (buildObjects scene (sceneBuildOptsOf c r) cnt).1.backbone = none := by
    cases scene with
    | none => simp [buildObjects]
    | some s => simp [buildObjects, hbk, backboneSlot]
  refine ⟨hbk, hnone, ?_, ?_, ?_⟩
  · intro g
    cases g with
    | none => simp [displayedOf, hrep]
    | some g0 => simp [displayedOf, hrep, hnone]
  · simp [sceneBuildOptsOf]
  · intro s hs hb hbonds hrib
    subst hs
    have hcart : ∃ g, (cartoonOf (some s) c cnt2).1 = some g := by
      rcases h with ht | hf
      · refine ⟨{ meshes := (List.range s.ribbonParts).map
                              (fun j => { id := cnt2 + j, matCount := 1 }) }, ?_⟩
        simp [cartoonOf, ht, makeRibbonMesh, hrib]
      · have ht : c.representation ≠ .ribbonTube := by rw [hf]; simp
        refine ⟨{ meshes := (List.range s.ribbonParts).map
                              (fun j => { id := cnt2 + j, matCount := 2 }) }, ?_⟩
        simp [cartoonOf, ht, hf, makeFlatRibbonMesh, hrib]
    rcases hcart with ⟨g, hg⟩
    have hbuilt : (buildObjects (some s) (sceneBuildOptsOf c r) cnt).1.bonds ≠ none := by
      simp [buildObjects, sceneBuildOptsOf, hb, bondSlot, makeBondLines, takeSlot, hbonds]
    rw [hg]
    simp only [displayedOf, hrep, if_neg hrep]
    simpa [hb] using hbuilt

/-- Witness for C10 at a concrete ribbon-tube configuration with bond and
ribbon data. -/
theorem ribbon_mode_overlays_w :
    (buildObjects (some demoScene)
        (sceneBuildOptsOf { demoControls with representation := .ribbonTube } 100) 0).1.backbone = none
    ∧ (displayedOf { demoControls with representation := .ribbonTube }
        ((cartoonOf (some demoScene) { demoControls with representation := .ribbonTube } 50).1)
        (buildObjects (some demoScene)
          (sceneBuildOptsOf { demoControls with representation := .ribbonTube } 100) 0).1).bonds ≠ none := by
  have h := ribbon_mode_overlays { demoControls with representation := .ribbonTube }
    (some demoScene) 100 0 50 (Or.inl rfl)
  exact ⟨h.2.1, h.2.2.2.2 demoScene rfl (by decide) (by decide) (by decide)⟩

/-- C1 (failing-input evaluation): two consecutive `useSceneObjects` render
passes whose memoization tuple (scene identity, atoms-options value,
bonds-enabled flag, backbone-options value) is equal by value nevertheless
rebuild: the second pass returns a different atom primitive, creates three
fresh primitives and disposes the three previous ones, because the `useMemo`
dependency array compares the freshly allocated option literals by
reference. -/
theorem useSceneObjects_rebuilds_despite_value_equal_key :
    specValueKey (some demoScene) (sceneBuildOptsOf demoControls 100)
      = specValueKey (some demoScene) (sceneBuildOptsOf demoControls 200)
    ∧ c1Pass2.2.1.atoms ≠ c1Pass1.2.1.atoms
    ∧ createdIds c1Pass2.2.2 = [3, 4, 5]
    ∧ dGeomIds c1Pass2.2.2 = [0, 1, 2]
    ∧ dMatPairs c1Pass2.2.2 = [(0, 0), (1, 0), (2, 0)] := by
  decide

theorem countInit_append (a b : List FEvent) :
    countInitAttempts (a ++ b) = countInitAttempts a + countInitAttempts b :=
  List.countP_append _ _ _

theorem countInit_boundsMap (ms : List Nat) :
    countInitAttempts (ms.map FEvent.meshBoundsRefreshed) = 0 := by
  induction ms with
  | nil => rfl
  | cons x xs ih => simp [countInitAttempts, List.countP_cons]

/-- Characterization of a render step of the fit controller. -/
theorem fitStep_render_char (s : FitState) (d : ReloadDeps) :
    (fitStep s (.render d)).didInitial = s.didInitial
    ∧ (fitStep s (.render d)).lastFitted = s.lastFitted
    ∧ (fitStep s (.render d)).cameraPose = s.cameraPose
    ∧ (fitStep s (.render d)).pendingInit =
        (if s.prevInitDeps = some d.api then s.pendingInit
         else if s.didInitial then none else some { api := d.api })
    ∧ (fitStep s (.render d)).pendingReload =
        (if s.prevReloadDeps = some d then s.pendingReload
         else if d.scene = none ∨ d.loading = true then none
         else if s.lastFitted = some d.sourceUrl then none
         else some { stage := .waitingFirstRaf, src := d.sourceUrl, api := d.api })
    ∧ countInitAttempts (fitStep s (.render d)).log = countInitAttempts s.log := by
  by_cases h1 : s.prevInitDeps = some d.api <;>
    by_cases h2 : s.prevReloadDeps = some d <;>
      simp [fitStep, h1, h2] <;>
        split_ifs <;> simp [countInit_append, countInitAttempts, List.countP_cons]

/-- A fired animation frame with no pending callback is a no-op. -/
theorem fitStep_fireReload_none (s : FitState) (root : Option (List Nat)) (b : Bool)
    (h : s.pendingReload = none) : fitStep s (.fireReloadRaf root b) = s := by
  simp [fitStep, h]

/-- A fired timeout with no pending callback is a no-op. -/
theorem fitStep_fireInit_none (s : FitState) (b : Bool)
    (h : s.pendingInit = none) : fitStep s (.fireInitTimeout b) = s := by
  simp [fitStep, h]

/-- A reload animation frame never touches the initial-fit side. -/
theorem fitStep_fireReload_initSide (s : FitState) (root : Option (List Nat)) (b : Bool) :
    (fitStep s (.fireReloadRaf root b)).didInitial = s.didInitial
    ∧ (fitStep s (.fireReloadRaf root b)).pendingInit = s.pendingInit
    ∧ countInitAttempts (fitStep s (.fireReloadRaf root b)).log = countInitAttempts s.log := by
  cases hp : s.pendingReload with
  | none => simp [fitStep, hp]
  | some cb =>
      obtain ⟨st, src, api⟩ := cb
      cases st with
      | waitingFirstRaf => simp [fitStep, hp]
      | waitingDoFit =>
          cases root with
          | none =>
              cases b <;>
                simp [fitStep, hp, countInit_append, countInitAttempts, List.countP_cons]
          | some ms =>
              cases b <;>
                simp [fitStep, hp] <;>
                  split_ifs <;>
                    simp [countInit_append, countInit_boundsMap, countInitAttempts,
                      List.countP_cons]

/-- A throwing fit leaves the camera pose and the recorded fitted source
unchanged, whichever callback fired. -/
theorem fitStep_fireReload_fails (s : FitState) (root : Option (List Nat)) :
    (fitStep s (.fireReloadRaf root true)).lastFitted = s.lastFitted
    ∧ (fitStep s (.fireReloadRaf root true)).cameraPose = s.cameraPose := by
  cases hp : s.pendingReload with
  | none => simp [fitStep, hp]
  | some cb =>
      obtain ⟨st, src, api⟩ := cb
      cases st with
      | waitingFirstRaf => simp [fitStep, hp]
      | waitingDoFit =>
          cases root with
          | none => simp [fitStep, hp]
          | some ms => simp [fitStep, hp]; split_ifs <;> simp

/-- Once `did.current` is set and no timeout is pending, every step keeps it
that way and records no further initial-fit attempt. -/
theorem fitStep_noInitRetry (s : FitState) (x : FInput)
    (h1 : s.didInitial = true) (h2 : s.pendingInit = none) :
    (fitStep s x).didInitial = true ∧ (fitStep s x).pendingInit = none
    ∧ countInitAttempts (fitStep s x).log = countInitAttempts s.log := by
  cases x with
  | render d =>
      have hc := fitStep_render_char s d
      refine ⟨by rw [hc.1, h1], ?_, hc.2.2.2.2.2⟩
      rw [hc.2.2.2.1]
      split_ifs <;> simp [h1, h2] at *
  | fireInitTimeout b => rw [fitStep_fireInit_none s b h2]; exact ⟨h1, h2, rfl⟩
  | fireReloadRaf root b =>
      have hc := fitStep_fireReload_initSide s root b
      exact ⟨by rw [hc.1, h1], by rw [hc.2.1, h2], hc.2.2⟩
  | unmount => exact ⟨h1, rfl, rfl⟩

theorem runFit_cons (s : FitState) (x : FInput) (xs : List FInput) :
    runFit s (x :: xs) = runFit (fitStep s x) xs := rfl

/-- Trace version of `fitStep_noInitRetry`. -/
theorem runFit_noInitRetry (l : List FInput) : ∀ (s : FitState),
    s.didInitial = true → s.pendingInit = none →
    (runFit s l).didInitial = true ∧ (runFit s l).pendingInit = none
    ∧ countInitAttempts (runFit s l).log = countInitAttempts s.log := by
  induction l with
  | nil => exact fun s h1 h2 => ⟨h1, h2, rfl⟩
  | cons x xs ih =>
      intro s h1 h2
      have hs := fitStep_noInitRetry s x h1 h2
      have hr := ih (fitStep s x) hs.1 hs.2.1
      rw [runFit_cons]
      exact ⟨hr.1, hr.2.1, by rw [hr.2.2, hs.2.2]⟩

/-- A render pass whose effect dependencies are unchanged, and any scheduler
tick with nothing pending, leave the controller state untouched. -/
theorem fitStep_stable (s : FitState) (v : ViewSnapshot)
    (hrd : s.prevReloadDeps = some (reloadDepsOf v)) (hid : s.prevInitDeps = some v.api)
    (hpr : s.pendingReload = none) (hpi : s.pendingInit = none)
    (x : FInput) (hx : okOptionInput v x) : fitStep s x = s := by
  rcases hx with ⟨w, hw, rfl⟩ | ⟨b, rfl⟩ | ⟨r, b, rfl⟩
  · obtain ⟨e1, e2, e3, e4⟩ := hw
    have hdep : reloadDepsOf w = reloadDepsOf v := by
      simp [reloadDepsOf, e1, e2, e3, e4]
    rw [hdep]
    have hapi : (reloadDepsOf v).api = v.api := rfl
    simp [fitStep, hapi, hid, hrd]
  · exact fitStep_fireInit_none s b hpi
  · exact fitStep_fireReload_none s r b hpr

/-- Trace version of `fitStep_stable`. -/
theorem runFit_stable (v : ViewSnapshot) (l : List FInput) : ∀ (s : FitState),
    s.prevReloadDeps = some (reloadDepsOf v) → s.prevInitDeps = some v.api →
    s.pendingReload = none → s.pendingInit = none →
    (∀ x ∈ l, okOptionInput v x) → runFit s l = s := by
  induction l with
  | nil => intro s _ _ _ _ _; rfl
  | cons x xs ih =>
      intro s hrd hid hpr hpi hall
      have h1 : fitStep s x = s :=
        fitStep_stable s v hrd hid hpr hpi x (hall x (by simp))
      rw [runFit_cons, h1]
      exact ih s hrd hid hpr hpi (fun y hy => hall y (by simp [hy]))

/-- C3: when the reload effect re-runs (its dependency array changed), it
schedules the camera fit exactly when a parsed scene is available, loading
has completed, and the active source differs from the last fitted source;
option-only changes leave the effect dependencies unchanged, and an entire
phase of option-only renders (and stray ticks) after a settled fit leaves
the controller state, its log and the camera pose untouched. -/
theorem reload_fit_trigger (s : FitState) (d : ReloadDeps) (v : ViewSnapshot) (l : List FInput) :
    (s.prevReloadDeps ≠ some d →
      ((fitStep s (.render d)).pendingReload
          = some { stage := .waitingFirstRaf, src := d.sourceUrl, api := d.api }
        ↔ (d.scene ≠ none ∧ d.loading = false ∧ s.lastFitted ≠ some d.sourceUrl)))
    ∧ (∀ w, optionOnly v w → reloadDepsOf w = reloadDepsOf v)
    ∧ (s.prevReloadDeps = some (reloadDepsOf v) → s.prevInitDeps = some v.api →
       s.pendingReload = none → s.pendingInit = none →
       (∀ x ∈ l, okOptionInput v x) →
       runFit s l = s ∧ (runFit s l).log = s.log
       ∧ (runFit s l).cameraPose = s.cameraPose) := by
  refine ⟨?_, ?_, ?_⟩
  · intro hne
    have hc := (fitStep_render_char s d).2.2.2.2.1
    rw [hc]
    simp only [if_neg hne]
    split_ifs with ha hb
    · refine iff_of_false (by simp) ?_
      rintro ⟨r1, r2, r3⟩
      rcases ha with ha | ha
      · exact r1 ha
      · simp [ha] at r2
    · refine iff_of_false (by simp) ?_
      rintro ⟨r1, r2, r3⟩
      exact r3 hb
    · push_neg at ha
      exact iff_of_true rfl ⟨ha.1, by simpa using ha.2, hb⟩
  · intro w hw
    obtain ⟨e1, e2, e3, e4⟩ := hw
    simp [reloadDepsOf, e1, e2, e3, e4]
  · intro hrd hid hpr hpi hall
    have h := runFit_stable v l s hrd hid hpr hpi hall
    exact ⟨h, by rw [h], by rw [h]⟩

/-- Witness for C3: a changed source schedules the reload fit, and a phase
of option-only renders after a settled fit is a no-op. -/
theorem reload_fit_trigger_w :
    demoSettled.prevReloadDeps ≠ some demoDepsB
    ∧ (fitStep demoSettled (.render demoDepsB)).pendingReload
        = some { stage := .waitingFirstRaf, src := "b", api := 3 }
    ∧ runFit demoSettled [FInput.render (reloadDepsOf demoSnapshot)] = demoSettled := by
  have h := reload_fit_trigger demoSettled demoDepsB demoSnapshot
    [FInput.render (reloadDepsOf demoSnapshot)]
  refine ⟨by decide, ?_, ?_⟩
  · exact (h.1 (by decide)).mpr (by decide)
  · refine (h.2.2 rfl rfl rfl rfl ?_).1
    intro x hx
    simp at hx
    subst hx
    exact Or.inl ⟨demoSnapshot, ⟨rfl, rfl, rfl, rfl⟩, rfl⟩

/-- C4: the reload fit procedure — the first animation frame only schedules
`doFit` (the fit waits two ticks); `doFit` with an empty content subtree
reschedules the check on the next tick without fitting; with children
present it refreshes every mesh's bounds, performs the fit scoped to the
content subtree, and on success records the fitted source; and a recorded
source prevents a later effect run from scheduling a refit. -/
theorem reload_fit_procedure (s : FitState) (src : String) (a : Nat)
    (root : Option (List Nat)) (b : Bool) (ms : List Nat) (d : ReloadDeps) :
    (s.pendingReload = some { stage := .waitingFirstRaf, src := src, api := a } →
      fitStep s (.fireReloadRaf root b)
        = { s with pendingReload := some { stage := .waitingDoFit, src := src, api := a } })
    ∧ (s.pendingReload = some { stage := .waitingDoFit, src := src, api := a } →
      fitStep s (.fireReloadRaf (some []) b)
        = { s with log := s.log ++ [FEvent.rescheduledChildWait src] })
    ∧ (s.pendingReload = some { stage := .waitingDoFit, src := src, api := a } → ms ≠ [] →
      fitStep s (.fireReloadRaf (some ms) false)
        = { s with pendingReload := none, lastFitted := some src,
                   cameraPose := s.cameraPose + 1,
                   log := s.log ++ ms.map FEvent.meshBoundsRefreshed
                        ++ [FEvent.reloadFitAttempt src true true] })
    ∧ (s.lastFitted = some d.sourceUrl → s.prevReloadDeps ≠ some d →
      (fitStep s (.render d)).pendingReload = none) := by
  refine ⟨?_, ?_, ?_, ?_⟩
  · intro hp
    simp [fitStep, hp]
  · intro hp
    simp [fitStep, hp]
  · intro hp hms
    have hlen : ¬ ms.length = 0 := by simpa [List.length_eq_zero] using hms
    simp [fitStep, hp, hlen]
  · intro hl hne
    have hc := (fitStep_render_char s d).2.2.2.2.1
    rw [hc, if_neg hne]
    by_cases h1 : d.scene = none ∨ d.loading = true
    · rw [if_pos h1]
    · rw [if_neg h1, if_pos hl]

/-- Witness for C4 at concrete states: frame advance, child-presence
reschedule, successful scoped fit with source recording, and the
no-refit guard. -/
theorem reload_fit_procedure_w :
    fitStep demoPendingRaf1 (.fireReloadRaf none false)
      = { demoPendingRaf1 with
            pendingReload := some { stage := .waitingDoFit, src := "b", api := 3 } }
    ∧ fitStep demoPendingDoFit (.fireReloadRaf (some []) false)
      = { demoPendingDoFit with log := [FEvent.rescheduledChildWait "b"] }
    ∧ fitStep demoPendingDoFit (.fireReloadRaf (some [10, 11]) false)
      = { demoPendingDoFit with
            pendingReload := none
            lastFitted := some "b"
            cameraPose := 3
            log := [FEvent.meshBoundsRefreshed 10, FEvent.meshBoundsRefreshed 11,
                    FEvent.reloadFitAttempt "b" true true] }
    ∧ (fitStep demoSettled (.render { demoDepsA with api := 99 })).pendingReload = none := by
  refine ⟨?_, ?_, ?_, ?_⟩
  · exact (reload_fit_procedure demoPendingRaf1 "b" 3 none false [] demoDepsA).1 rfl
  · exact (reload_fit_procedure demoPendingDoFit "b" 3 none false [] demoDepsA).2.1 rfl
  · exact (reload_fit_procedure demoPendingDoFit "b" 3 none false [10, 11] demoDepsA).2.2.1
      rfl (by decide)
  · exact (reload_fit_procedure demoSettled "b" 3 none false [] { demoDepsA with api := 99 }).2.2.2
      rfl (by decide)

/-- C5: every pending scheduled fit callback is cancelled when its effect's
dependencies change again or on unmount — after a dependency-changed render
the pending reload callback is either gone or freshly scheduled for the new
source, the pending timeout likewise, unmount clears both, and a fired
scheduler tick with nothing pending changes nothing, so a superseded
callback can never fire. -/
theorem pending_fits_cancelled (s : FitState) (d : ReloadDeps)
    (root : Option (List Nat)) (b : Bool) :
    (s.prevReloadDeps ≠ some d →
      ((fitStep s (.render d)).pendingReload = none ∨
       (fitStep s (.render d)).pendingReload
         = some { stage := .waitingFirstRaf, src := d.sourceUrl, api := d.api }))
    ∧ (s.prevInitDeps ≠ some d.api →
      ((fitStep s (.render d)).pendingInit = none ∨
       (fitStep s (.render d)).pendingInit = some { api := d.api }))
    ∧ ((fitStep s .unmount).pendingInit = none ∧ (fitStep s .unmount).pendingReload = none)
    ∧ (s.pendingReload = none → fitStep s (.fireReloadRaf root b) = s)
    ∧ (s.pendingInit = none → fitStep s (.fireInitTimeout b) = s) := by
  refine ⟨?_, ?_, ⟨rfl, rfl⟩, fitStep_fireReload_none s root b, fitStep_fireInit_none s b⟩
  · intro hne
    have hc := (fitStep_render_char s d).2.2.2.2.1
    rw [hc]
    simp only [if_neg hne]
    split_ifs <;> simp
  · intro hne
    have hc := (fitStep_render_char s d).2.2.2.1
    rw [hc]
    simp only [if_neg hne]
    split_ifs <;> simp

/-- Witness for C5: the stale doFit callback for "b" disappears when the
effect re-runs for source "a", unmount clears the pending callback, and a
tick with nothing pending is a no-op. -/
theorem pending_fits_cancelled_w :
    ((fitStep demoPendingDoFit (.render demoDepsA)).pendingReload = none ∨
     (fitStep demoPendingDoFit (.render demoDepsA)).pendingReload
       = some { stage := .waitingFirstRaf, src := "a", api := 3 })
    ∧ (fitStep demoPendingDoFit .unmount).pendingReload = none
    ∧ fitStep demoSettled (.fireReloadRaf none true) = demoSettled := by
  have h := pending_fits_cancelled demoPendingDoFit demoDepsA none true
  have h2 := pending_fits_cancelled demoSettled demoDepsA none true
  exact ⟨h.1 (by decide), h.2.2.1.2, h2.2.2.2.1 rfl⟩

/-- C6: every error thrown during a fit attempt — initial or reload — is
swallowed inside the controller, leaving the camera pose and the recorded
source unchanged; and once the initial-fit timeout has fired (even failing),
`did.current` is set and no later step within the mount yields another
initial-fit attempt. -/
theorem fit_errors_swallowed (s : FitState) (root : Option (List Nat)) (l : List FInput) :
    ((fitStep s (.fireInitTimeout true)).cameraPose = s.cameraPose
      ∧ (fitStep s (.fireInitTimeout true)).lastFitted = s.lastFitted)
    ∧ (s.pendingInit ≠ none → (fitStep s (.fireInitTimeout true)).didInitial = true)
    ∧ ((fitStep s (.fireReloadRaf root true)).cameraPose = s.cameraPose
      ∧ (fitStep s (.fireReloadRaf root true)).lastFitted = s.lastFitted)
    ∧ (s.didInitial = true → s.pendingInit = none →
        (runFit s l).pendingInit = none
        ∧ countInitAttempts (runFit s l).log = countInitAttempts s.log) := by
  refine ⟨?_, ?_, ?_, ?_⟩
  · cases hp : s.pendingInit with
    | none => simp [fitStep, hp]
    | some cb => simp [fitStep, hp]
  · intro hne
    cases hp : s.pendingInit with
    | none => exact absurd hp hne
    | some cb => simp [fitStep, hp]
  · exact ⟨(fitStep_fireReload_fails s root).2, (fitStep_fireReload_fails s root).1⟩
  · intro h1 h2
    exact ⟨(runFit_noInitRetry l s h1 h2).2.1, (runFit_noInitRetry l s h1 h2).2.2⟩

/-- Witness for C6: a failing initial fit leaves the camera unchanged while
setting the done flag; a failing reload fit keeps the recorded source; a
later trace after the fit produces no further initial-fit attempt. -/
theorem fit_errors_swallowed_w :
    (fitStep demoPendingInit (.fireInitTimeout true)).cameraPose = 0
    ∧ (fitStep demoPendingInit (.fireInitTimeout true)).didInitial = true
    ∧ (fitStep demoPendingDoFit (.fireReloadRaf (some [4]) true)).lastFitted = some "a"
    ∧ countInitAttempts
        (runFit demoSettled [FInput.render demoDepsB, FInput.fireInitTimeout false]).log = 0 := by
  have h1 := fit_errors_swallowed demoPendingInit (some [4]) []
  have h2 := fit_errors_swallowed demoPendingDoFit (some [4]) []
  have h3 := fit_errors_swallowed demoSettled (some [4])
    [FInput.render demoDepsB, FInput.fireInitTimeout false]
  exact ⟨h1.1.1, h1.2.1 (by decide), h2.2.2.1.2, ((h3.2.2.2 rfl rfl).2).trans (by decide)⟩

/-- C9: the two fit paths are asymmetric on error — a throwing reload fit
skips recording the fitted source, so the reload is re-attempted at the next
dependency change satisfying the guard, whereas the initial-fit done flag is
set by the firing timeout even when the fit threw, and no later render
schedules the initial fit again. -/
theorem fit_error_asymmetry (s : FitState) (root : Option (List Nat)) (d : ReloadDeps) :
    ((fitStep s (.fireReloadRaf root true)).lastFitted = s.lastFitted)
    ∧ (s.lastFitted ≠ some d.sourceUrl → d.scene ≠ none → d.loading = false →
       s.prevReloadDeps ≠ some d →
       (fitStep s (.render d)).pendingReload
         = some { stage := .waitingFirstRaf, src := d.sourceUrl, api := d.api })
    ∧ (s.pendingInit ≠ none → (fitStep s (.fireInitTimeout true)).didInitial = true)
    ∧ ((fitStep s (.fireInitTimeout true)).pendingInit = none)
    ∧ (s.didInitial = true → s.pendingInit = none →
       (fitStep s (.render d)).pendingInit = none) := by
  refine ⟨(fitStep_fireReload_fails s root).1, ?_, ?_, ?_, ?_⟩
  · intro hl hsc hld hne
    have hc := (fitStep_render_char s d).2.2.2.2.1
    rw [hc]
    simp only [if_neg hne]
    have hcond : ¬ (d.scene = none ∨ d.loading = true) := by
      rintro (h | h)
      · exact hsc h
      · simp [hld] at h
    rw [if_neg hcond, if_neg hl]
  · intro hne
    cases hp : s.pendingInit with
    | none => exact absurd hp hne
    | some cb => simp [fitStep, hp]
  · cases hp : s.pendingInit with
    | none => rw [fitStep_fireInit_none s true hp]; exact hp
    | some cb => simp [fitStep, hp]
  · intro h1 h2
    have hc := (fitStep_render_char s d).2.2.2.1
    rw [hc]
    split_ifs <;> simp [h1, h2]

/-- Witness for C9: failed reload keeps the old recorded source while the
guard still allows rescheduling; a failed initial fit still sets the done
flag. -/
theorem fit_error_asymmetry_w :
    (fitStep demoPendingDoFit (.fireReloadRaf (some [4]) true)).lastFitted = some "a"
    ∧ (fitStep demoPendingInit (.fireInitTimeout true)).didInitial = true
    ∧ (fitStep demoSettled (.render demoDepsB)).pendingReload
        = some { stage := .waitingFirstRaf, src := "b", api := 3 } := by
  have h1 := fit_error_asymmetry demoPendingDoFit (some [4]) demoDepsB
  have h2 := fit_error_asymmetry demoPendingInit none demoDepsB
  have h3 := fit_error_asymmetry demoSettled none demoDepsB
  exact ⟨h1.1, h2.2.2.1 (by decide), h3.2.1 (by decide) (by decide) rfl (by decide)⟩

/-! ### Resource-accounting lemmas for the scene-object cache (C2) -/

theorem createdIds_append (a b : List Event) :
    createdIds (a ++ b) = createdIds a ++ createdIds b :=
  List.filterMap_append _ _ _

theorem dGeomIds_append (a b : List Event) :
    dGeomIds (a ++ b) = dGeomIds a ++ dGeomIds b :=
  List.filterMap_append _ _ _

theorem dMatPairs_append (a b : List Event) :
    dMatPairs (a ++ b) = dMatPairs a ++ dMatPairs b :=
  List.filterMap_append _ _ _

theorem createdMatPairs_append (a b : List Event) :
    createdMatPairs (a ++ b) = createdMatPairs a ++ createdMatPairs b := by
  unfold createdMatPairs
  exact List.flatMap_append ..

theorem createdIds_creates (l : List Nat) : createdIds (l.map (fun i => Event.create i 1)) = l := by
  induction l with
  | nil => rfl
  | cons x xs ih => simp [createdIds, List.filterMap_cons] at ih ⊢; exact ih

theorem dGeomIds_creates (l : List Nat) : dGeomIds (l.map (fun i => Event.create i 1)) = [] := by
  simp [dGeomIds, List.filterMap_map]

theorem dMatPairs_creates (l : List Nat) : dMatPairs (l.map (fun i => Event.create i 1)) = [] := by
  simp [dMatPairs, List.filterMap_map]

theorem createdMatPairs_creates (l : List Nat) :
    createdMatPairs (l.map (fun i => Event.create i 1)) = l.map (fun i => (i, 0)) := by
  induction l with
  | nil => rfl
  | cons x xs ih =>
      simp only [createdMatPairs] at ih
      simp [createdMatPairs, List.range_succ, ih]

theorem dGeomIds_disposeBlock (l : List Nat) :
    dGeomIds (l.flatMap (fun i => [Event.disposeGeom i, Event.disposeMat i 0])) = l := by
  induction l with
  | nil => rfl
  | cons x xs ih => simp [dGeomIds, List.filterMap_cons] at ih ⊢; exact ih

theorem dMatPairs_disposeBlock (l : List Nat) :
    dMatPairs (l.flatMap (fun i => [Event.disposeGeom i, Event.disposeMat i 0]))
      = l.map (fun i => (i, 0)) := by
  induction l with
  | nil => rfl
  | cons x xs ih => simp [dMatPairs, List.filterMap_cons] at ih ⊢; exact ih

theorem createdIds_disposeBlock (l : List Nat) :
    createdIds (l.flatMap (fun i => [Event.disposeGeom i, Event.disposeMat i 0])) = [] := by
  induction l with
  | nil => rfl
  | cons x xs ih => simpa [createdIds, List.filterMap_cons] using ih

theorem createdMatPairs_disposeBlock (l : List Nat) :
    createdMatPairs (l.flatMap (fun i => [Event.disposeGeom i, Event.disposeMat i 0])) = [] := by
  induction l with
  | nil => rfl
  | cons x xs ih => simpa [createdMatPairs] using ih

theorem ids_eq_of_effKey {a b : Objects} (h : effKey a = effKey b) : a.ids = b.ids := by
  have h1 : a.atoms.map MeshObj.id = b.atoms.map MeshObj.id := congrArg Prod.fst h
  have h2 : a.bonds.map MeshObj.id = b.bonds.map MeshObj.id := congrArg (fun p => p.2.1) h
  have h3 : a.backbone.map MeshObj.id = b.backbone.map MeshObj.id := congrArg (fun p => p.2.2) h
  unfold Objects.ids
  rw [h1, h2, h3]

theorem atomSlot_spec (s : MolScene) (o : JsOpt AtomMeshOptions) (cnt : Nat) :
    ((atomSlot s o cnt).1 = none ∧ (atomSlot s o cnt).2 = cnt) ∨
    ((atomSlot s o cnt).1.map MeshObj.id = some cnt ∧ (atomSlot s o cnt).2 = cnt + 1) := by
  cases o with
  | off => exact Or.inl ⟨rfl, rfl⟩
  | obj r v =>
      cases hA : s.hasAtoms
      · exact Or.inl (by simp [atomSlot, makeAtomsMesh, takeSlot, hA])
      · exact Or.inr (by simp [atomSlot, makeAtomsMesh, takeSlot, hA])

theorem bondSlot_spec (s : MolScene) (b : Bool) (cnt : Nat) :
    ((bondSlot s b cnt).1 = none ∧ (bondSlot s b cnt).2 = cnt) ∨
    ((bondSlot s b cnt).1.map MeshObj.id = some cnt ∧ (bondSlot s b cnt).2 = cnt + 1) := by
  cases b with
  | false => exact Or.inl ⟨rfl, rfl⟩
  | true =>
      cases hB : s.hasBonds
      · exact Or.inl (by simp [bondSlot, makeBondLines, takeSlot, hB])
      · exact Or.inr (by simp [bondSlot, makeBondLines, takeSlot, hB])

theorem backboneSlot_spec (s : MolScene) (o : JsOpt BackboneLineOptions) (cnt : Nat) :
    ((backboneSlot s o cnt).1 = none ∧ (backboneSlot s o cnt).2 = cnt) ∨
    ((backboneSlot s o cnt).1.map MeshObj.id = some cnt ∧ (backboneSlot s o cnt).2 = cnt + 1) := by
  cases o with
  | off => exact Or.inl ⟨rfl, rfl⟩
  | obj r v =>
      cases hK : s.hasBackbone
      · exact Or.inl (by simp [backboneSlot, makeBackboneLines, takeSlot, hK])
      · exact Or.inr (by simp [backboneSlot, makeBackboneLines, takeSlot, hK])

/-- Freshness of one `useMemo` rebuild: every produced identity lies in
`[cnt, cnt')`, the counter does not decrease, and the produced identities
are distinct. -/
theorem buildObjects_fresh (scene : Option MolScene) (o : SceneBuildOptions) (cnt : Nat) :
    (∀ i ∈ (buildObjects scene o cnt).1.ids, cnt ≤ i ∧ i < (buildObjects scene o cnt).2)
    ∧ cnt ≤ (buildObjects scene o cnt).2
    ∧ (buildObjects scene o cnt).1.ids.Nodup := by
  cases scene with
  | none => simp [buildObjects, Objects.ids]
  | some s =>
      rcases atomSlot_spec s o.atoms cnt with ⟨ha1, ha2⟩ | ⟨ha1, ha2⟩ <;>
        rcases bondSlot_spec s o.bonds (atomSlot s o.atoms cnt).2 with ⟨hb1, hb2⟩ | ⟨hb1, hb2⟩ <;>
          rcases backboneSlot_spec s o.backbone
              (bondSlot s o.bonds (atomSlot s o.atoms cnt).2).2 with ⟨hk1, hk2⟩ | ⟨hk1, hk2⟩ <;>
            simp only [ha2] at hb1 hb2 hk1 hk2 <;>
              simp only [hb2] at hk1 hk2 <;>
                refine ⟨?_, ?_, ?_⟩ <;>
                  simp [buildObjects, Objects.ids, List.filterMap_cons, ha1, ha2, hb1, hb2,
                    hk1, hk2, List.forall_mem_cons, Option.map_eq_some] <;>
                    omega

theorem createdIds_createEvents (o : Objects) : createdIds (createEvents o) = o.ids :=
  createdIds_creates o.ids

theorem dGeomIds_createEvents (o : Objects) : dGeomIds (createEvents o) = [] :=
  dGeomIds_creates o.ids

theorem dMatPairs_createEvents (o : Objects) : dMatPairs (createEvents o) = [] :=
  dMatPairs_creates o.ids

theorem createdMatPairs_createEvents (o : Objects) :
    createdMatPairs (createEvents o) = o.ids.map (fun i => (i, 0)) :=
  createdMatPairs_creates o.ids

/-- Re-establishing the accounting invariant after a rebuild that disposes
the previously live identities `w` and registers the fresh build. -/
theorem hookInv_establish (log : List Event) (scene : Option MolScene) (o : SceneBuildOptions)
    (cnt : Nat) (w : List Nat)
    (hperm : (dGeomIds log ++ w).Perm (createdIds log))
    (hcnodup : (createdIds log).Nodup)
    (hclt : ∀ i ∈ createdIds log, i < cnt)
    (hmat : dMatPairs log = (dGeomIds log).map (fun i => (i, 0)))
    (hcmat : createdMatPairs log = (createdIds log).map (fun i => (i, 0))) :
    (dGeomIds (log ++ (createEvents (buildObjects scene o cnt).1
        ++ w.flatMap (fun i => [Event.disposeGeom i, Event.disposeMat i 0])))
      ++ (buildObjects scene o cnt).1.ids).Perm
      (createdIds (log ++ (createEvents (buildObjects scene o cnt).1
        ++ w.flatMap (fun i => [Event.disposeGeom i, Event.disposeMat i 0]))))
    ∧ (createdIds (log ++ (createEvents (buildObjects scene o cnt).1
        ++ w.flatMap (fun i => [Event.disposeGeom i, Event.disposeMat i 0])))).Nodup
    ∧ (∀ i ∈ createdIds (log ++ (createEvents (buildObjects scene o cnt).1
        ++ w.flatMap (fun i => [Event.disposeGeom i, Event.disposeMat i 0]))),
        i < (buildObjects scene o cnt).2)
    ∧ dMatPairs (log ++ (createEvents (buildObjects scene o cnt).1
        ++ w.flatMap (fun i => [Event.disposeGeom i, Event.disposeMat i 0])))
      = (dGeomIds (log ++ (createEvents (buildObjects scene o cnt).1
          ++ w.flatMap (fun i => [Event.disposeGeom i, Event.disposeMat i 0])))).map
          (fun i => (i, 0))
    ∧ createdMatPairs (log ++ (createEvents (buildObjects scene o cnt).1
        ++ w.flatMap (fun i => [Event.disposeGeom i, Event.disposeMat i 0])))
      = (createdIds (log ++ (createEvents (buildObjects scene o cnt).1
          ++ w.flatMap (fun i => [Event.disposeGeom i, Event.disposeMat i 0])))).map
          (fun i => (i, 0)) := by
  have hfresh := buildObjects_fresh scene o cnt
  have hCL : createdIds (log ++ (createEvents (buildObjects scene o cnt).1
      ++ w.flatMap (fun i => [Event.disposeGeom i, Event.disposeMat i 0])))
      = createdIds log ++ (buildObjects scene o cnt).1.ids := by
    rw [createdIds_append, createdIds_append, createdIds_createEvents, createdIds_disposeBlock,
      List.append_nil]
  have hGL : dGeomIds (log ++ (createEvents (buildObjects scene o cnt).1
      ++ w.flatMap (fun i => [Event.disposeGeom i, Event.disposeMat i 0])))
      = dGeomIds log ++ w := by
    rw [dGeomIds_append, dGeomIds_append, dGeomIds_createEvents, dGeomIds_disposeBlock,
      List.nil_append]
  have hML : dMatPairs (log ++ (createEvents (buildObjects scene o cnt).1
      ++ w.flatMap (fun i => [Event.disposeGeom i, Event.disposeMat i 0])))
      = dMatPairs log ++ w.map (fun i => (i, 0)) := by
    rw [dMatPairs_append, dMatPairs_append, dMatPairs_createEvents, dMatPairs_disposeBlock,
      List.nil_append]
  have hCML : createdMatPairs (log ++ (createEvents (buildObjects scene o cnt).1
      ++ w.flatMap (fun i => [Event.disposeGeom i, Event.disposeMat i 0])))
      = createdMatPairs log ++ ((buildObjects scene o cnt).1.ids).map (fun i => (i, 0)) := by
    rw [createdMatPairs_append, createdMatPairs_append, createdMatPairs_createEvents,
      createdMatPairs_disposeBlock, List.append_nil]
  refine ⟨?_, ?_, ?_, ?_, ?_⟩
  · rw [hCL, hGL]
    exact hperm.append_right (buildObjects scene o cnt).1.ids
  · rw [hCL]
    refine hcnodup.append hfresh.2.2 ?_
    intro a ha hb
    have h1 := hclt a ha
    have h2 := (hfresh.1 a hb).1
    omega
  · rw [hCL]
    intro i hi
    rcases List.mem_append.mp hi with hi | hi
    · have := hclt i hi
      have h2 := hfresh.2.1
      omega
    · exact (hfresh.1 i hi).2
  · rw [hML, hGL, hmat, List.map_append]
  · rw [hCML, hCL, hcmat, List.map_append]

/-- One `useSceneObjects` render pass preserves the accounting invariant. -/
theorem hookInv_step (s : HookState) (log : List Event) (scene : Option MolScene)
    (o : SceneBuildOptions) (h : HookInv s log) :
    HookInv (renderHook s scene o).1 (log ++ (renderHook s scene o).2.2) := by
  obtain ⟨⟨hlt, hnd, hcoh⟩, hperm, hcnodup, hclt, hmat, hcmat⟩ := h
  have hfresh := buildObjects_fresh scene o s.cnt
  cases hm : s.memo with
  | none =>
      cases hr : s.reg with
      | some w => rw [hm, hr] at hcoh; simp at hcoh
      | none =>
          have hlive : liveIds s = [] := by simp [liveIds, hr]
          have hrh : renderHook s scene o
              = ({ memo := some (depsOf scene o, (buildObjects scene o s.cnt).1),
                   reg := some (buildObjects scene o s.cnt).1,
                   cnt := (buildObjects scene o s.cnt).2 },
                 (buildObjects scene o s.cnt).1,
                 createEvents (buildObjects scene o s.cnt).1) := by
            simp [renderHook, hm, hr]
          rw [hrh]
          rw [hlive] at hperm
          have hest := hookInv_establish log scene o s.cnt [] (by simpa using hperm)
            hcnodup hclt hmat hcmat
          simp only [List.flatMap_nil, List.append_nil] at hest
          refine ⟨⟨?_, ?_, ?_⟩, hest.1, hest.2.1, hest.2.2.1, hest.2.2.2.1, hest.2.2.2.2⟩
          · intro i hi
            exact ((hfresh.1 i (by simpa [liveIds] using hi)).2)
          · simpa [liveIds] using hfresh.2.2
          · exact ⟨rfl, fun i hi => (hfresh.1 i hi).2⟩
  | some p =>
      cases hr : s.reg with
      | none => rw [hm, hr] at hcoh; simp at hcoh
      | some w =>
          rw [hm, hr] at hcoh
          have hlive : liveIds s = w.ids := by simp [liveIds, hr]
          by_cases hd : p.1 = depsOf scene o
          · -- memo hit: cached value returned, effect dependencies unchanged
            have hrh : renderHook s scene o
                = ({ memo := some (depsOf scene o, p.2), reg := some w, cnt := s.cnt }, p.2, []) := by
              simp [renderHook, hm, hr, hd, hcoh.1]
            rw [hrh]
            simp only [List.append_nil]
            refine ⟨⟨?_, ?_, ?_⟩, ?_, hcnodup, hclt, hmat, hcmat⟩
            · intro i hi
              exact hlt i (by rw [hlive]; simpa [liveIds] using hi)
            · rw [hlive] at hnd; simpa [liveIds] using hnd
            · exact ⟨hcoh.1, hcoh.2⟩
            · rw [hlive] at hperm; simpa [liveIds] using hperm
          · by_cases hk : effKey w = effKey (buildObjects scene o s.cnt).1
            · -- rebuild whose objects carry the same references: both empty
              have hwids : w.ids = (buildObjects scene o s.cnt).1.ids := ids_eq_of_effKey hk
              have hids : (buildObjects scene o s.cnt).1.ids = [] := by
                cases hB : (buildObjects scene o s.cnt).1.ids with
                | nil => rfl
                | cons x xs =>
                    exfalso
                    have hxB : x ∈ (buildObjects scene o s.cnt).1.ids := by
                      rw [hB]; exact List.mem_cons_self x xs
                    have hxw : x ∈ liveIds s := by rw [hlive, hwids]; exact hxB
                    have h1 := (hfresh.1 x hxB).1
                    have h2 := hlt x hxw
                    omega
              have hce : createEvents (buildObjects scene o s.cnt).1 = [] := by
                unfold createEvents
                rw [hids]
                rfl
              have hrh : renderHook s scene o
                  = ({ memo := some (depsOf scene o, (buildObjects scene o s.cnt).1),
                       reg := some w, cnt := (buildObjects scene o s.cnt).2 },
                     (buildObjects scene o s.cnt).1, []) := by
                simp [renderHook, hm, hr, hd, hk, hce]
              rw [hrh]
              simp only [List.append_nil]
              refine ⟨⟨?_, ?_, ?_⟩, ?_, hcnodup, ?_, hmat, hcmat⟩
              · intro i hi
                show i < (buildObjects scene o s.cnt).2
                have h1 := hlt i (by rw [hlive]; simpa [liveIds] using hi)
                have h2 := hfresh.2.1
                omega
              · rw [hlive] at hnd; simpa [liveIds] using hnd
              · refine ⟨hk, ?_⟩
                intro i hi
                rw [hids] at hi
                simp at hi
              · rw [hlive] at hperm; simpa [liveIds] using hperm
              · intro i hi
                show i < (buildObjects scene o s.cnt).2
                have h1 := hclt i hi
                have h2 := hfresh.2.1
                omega
            · -- rebuild with cleanup of the previous objects
              have hrh : renderHook s scene o
                  = ({ memo := some (depsOf scene o, (buildObjects scene o s.cnt).1),
                       reg := some (buildObjects scene o s.cnt).1,
                       cnt := (buildObjects scene o s.cnt).2 },
                     (buildObjects scene o s.cnt).1,
                     createEvents (buildObjects scene o s.cnt).1 ++ disposeEvents w) := by
                simp [renderHook, hm, hr, hd, hk]
              rw [hrh]
              rw [hlive] at hperm
              have hest := hookInv_establish log scene o s.cnt w.ids hperm hcnodup hclt hmat hcmat
              refine ⟨⟨?_, ?_, ?_⟩, hest.1, hest.2.1, hest.2.2.1, hest.2.2.2.1, hest.2.2.2.2⟩
              · intro i hi
                exact (hfresh.1 i (by simpa [liveIds] using hi)).2
              · simpa [liveIds] using hfresh.2.2
              · exact ⟨rfl, fun i hi => (hfresh.1 i hi).2⟩

/-! ### Cartoon-group resource accounting -/

theorem dGeomIds_cons_geom (i : Nat) (l : List Event) :
    dGeomIds (Event.disposeGeom i :: l) = i :: dGeomIds l := by
  simp [dGeomIds, List.filterMap_cons]

theorem dGeomIds_cons_mat (i k : Nat) (l : List Event) :
    dGeomIds (Event.disposeMat i k :: l) = dGeomIds l := by
  simp [dGeomIds, List.filterMap_cons]

theorem dGeomIds_cons_create (i mc : Nat) (l : List Event) :
    dGeomIds (Event.create i mc :: l) = dGeomIds l := by
  simp [dGeomIds, List.filterMap_cons]

theorem dMatPairs_cons_geom (i : Nat) (l : List Event) :
    dMatPairs (Event.disposeGeom i :: l) = dMatPairs l := by
  simp [dMatPairs, List.filterMap_cons]

theorem dMatPairs_cons_mat (i k : Nat) (l : List Event) :
    dMatPairs (Event.disposeMat i k :: l) = (i, k) :: dMatPairs l := by
  simp [dMatPairs, List.filterMap_cons]

theorem dMatPairs_cons_create (i mc : Nat) (l : List Event) :
    dMatPairs (Event.create i mc :: l) = dMatPairs l := by
  simp [dMatPairs, List.filterMap_cons]

theorem createdIds_cons_geom (i : Nat) (l : List Event) :
    createdIds (Event.disposeGeom i :: l) = createdIds l := by
  simp [createdIds, List.filterMap_cons]

theorem createdIds_cons_mat (i k : Nat) (l : List Event) :
    createdIds (Event.disposeMat i k :: l) = createdIds l := by
  simp [createdIds, List.filterMap_cons]

theorem createdIds_cons_create (i mc : Nat) (l : List Event) :
    createdIds (Event.create i mc :: l) = i :: createdIds l := by
  simp [createdIds, List.filterMap_cons]

theorem createdMatPairs_cons_geom (i : Nat) (l : List Event) :
    createdMatPairs (Event.disposeGeom i :: l) = createdMatPairs l := by
  simp [createdMatPairs]

theorem createdMatPairs_cons_mat (i k : Nat) (l : List Event) :
    createdMatPairs (Event.disposeMat i k :: l) = createdMatPairs l := by
  simp [createdMatPairs]

theorem createdMatPairs_cons_create (i mc : Nat) (l : List Event) :
    createdMatPairs (Event.create i mc :: l)
      = (List.range mc).map (fun k => (i, k)) ++ createdMatPairs l := by
  simp [createdMatPairs]

theorem dMatPairs_matBlock (j : Nat) (ks : List Nat) :
    dMatPairs (ks.map (Event.disposeMat j)) = ks.map (fun k => (j, k)) := by
  induction ks with
  | nil => rfl
  | cons x xs ih => rw [List.map_cons, dMatPairs_cons_mat, ih, List.map_cons]

theorem dGeomIds_matBlock (j : Nat) (ks : List Nat) :
    dGeomIds (ks.map (Event.disposeMat j)) = [] := by
  induction ks with
  | nil => rfl
  | cons x xs ih => rw [List.map_cons, dGeomIds_cons_mat, ih]

theorem createdIds_matBlock (j : Nat) (ks : List Nat) :
    createdIds (ks.map (Event.disposeMat j)) = [] := by
  induction ks with
  | nil => rfl
  | cons x xs ih => rw [List.map_cons, createdIds_cons_mat, ih]

theorem createdMatPairs_matBlock (j : Nat) (ks : List Nat) :
    createdMatPairs (ks.map (Event.disposeMat j)) = [] := by
  induction ks with
  | nil => rfl
  | cons x xs ih => rw [List.map_cons, createdMatPairs_cons_mat, ih]

theorem createdIds_groupCreate (ms : List CartoonMesh) :
    createdIds (ms.map (fun m => Event.create m.id m.matCount)) = ms.map CartoonMesh.id := by
  induction ms with
  | nil => rfl
  | cons m rest ih => rw [List.map_cons, createdIds_cons_create, ih, List.map_cons]

theorem dGeomIds_groupCreate (ms : List CartoonMesh) :
    dGeomIds (ms.map (fun m => Event.create m.id m.matCount)) = [] := by
  induction ms with
  | nil => rfl
  | cons m rest ih => rw [List.map_cons, dGeomIds_cons_create, ih]

theorem dMatPairs_groupCreate (ms : List CartoonMesh) :
    dMatPairs (ms.map (fun m => Event.create m.id m.matCount)) = [] := by
  induction ms with
  | nil => rfl
  | cons m rest ih => rw [List.map_cons, dMatPairs_cons_create, ih]

theorem createdMatPairs_groupCreate (ms : List CartoonMesh) :
    createdMatPairs (ms.map (fun m => Event.create m.id m.matCount)) = meshPairs ms := by
  induction ms with
  | nil => rfl
  | cons m rest ih =>
      rw [List.map_cons, createdMatPairs_cons_create, ih]
      simp only [meshPairs, List.flatMap_cons]

theorem dGeomIds_groupDispose (ms : List CartoonMesh) :
    dGeomIds (ms.flatMap (fun m =>
      Event.disposeGeom m.id :: (List.range m.matCount).map (Event.disposeMat m.id)))
      = ms.map CartoonMesh.id := by
  induction ms with
  | nil => rfl
  | cons m rest ih =>
      rw [List.flatMap_cons, List.cons_append, dGeomIds_cons_geom, dGeomIds_append,
        dGeomIds_matBlock, List.nil_append, ih, List.map_cons]

theorem dMatPairs_groupDispose (ms : List CartoonMesh) :
    dMatPairs (ms.flatMap (fun m =>
      Event.disposeGeom m.id :: (List.range m.matCount).map (Event.disposeMat m.id)))
      = meshPairs ms := by
  induction ms with
  | nil => rfl
  | cons m rest ih =>
      rw [List.flatMap_cons, List.cons_append, dMatPairs_cons_geom, dMatPairs_append,
        dMatPairs_matBlock, ih]
      simp only [meshPairs, List.flatMap_cons]

theorem createdIds_groupDispose (ms : List CartoonMesh) :
    createdIds (ms.flatMap (fun m =>
      Event.disposeGeom m.id :: (List.range m.matCount).map (Event.disposeMat m.id))) = [] := by
  induction ms with
  | nil => rfl
  | cons m rest ih =>
      rw [List.flatMap_cons, List.cons_append, createdIds_cons_geom, createdIds_append,
        createdIds_matBlock, List.nil_append, ih]

theorem createdMatPairs_groupDispose (ms : List CartoonMesh) :
    createdMatPairs (ms.flatMap (fun m =>
      Event.disposeGeom m.id :: (List.range m.matCount).map (Event.disposeMat m.id))) = [] := by
  induction ms with
  | nil => rfl
  | cons m rest ih =>
      rw [List.flatMap_cons, List.cons_append, createdMatPairs_cons_geom, createdMatPairs_append,
        createdMatPairs_matBlock, List.nil_append, ih]

theorem createdIds_cartCreate (g : Option SceneGroup) :
    createdIds (cartCreateEvents g) = optGroupIds g := by
  cases g with
  | none => rfl
  | some g0 => exact createdIds_groupCreate g0.meshes

theorem dGeomIds_cartCreate (g : Option SceneGroup) : dGeomIds (cartCreateEvents g) = [] := by
  cases g with
  | none => rfl
  | some g0 => exact dGeomIds_groupCreate g0.meshes

theorem dMatPairs_cartCreate (g : Option SceneGroup) : dMatPairs (cartCreateEvents g) = [] := by
  cases g with
  | none => rfl
  | some g0 => exact dMatPairs_groupCreate g0.meshes

theorem createdMatPairs_cartCreate (g : Option SceneGroup) :
    createdMatPairs (cartCreateEvents g) = optGroupPairs g := by
  cases g with
  | none => rfl
  | some g0 => exact createdMatPairs_groupCreate g0.meshes

theorem dGeomIds_cartDispose (g : Option SceneGroup) :
    dGeomIds (cartDisposeEvents g) = optGroupIds g := by
  cases g with
  | none => rfl
  | some g0 => exact dGeomIds_groupDispose g0.meshes

theorem dMatPairs_cartDispose (g : Option SceneGroup) :
    dMatPairs (cartDisposeEvents g) = optGroupPairs g := by
  cases g with
  | none => rfl
  | some g0 => exact dMatPairs_groupDispose g0.meshes

theorem createdIds_cartDispose (g : Option SceneGroup) :
    createdIds (cartDisposeEvents g) = [] := by
  cases g with
  | none => rfl
  | some g0 => exact createdIds_groupDispose g0.meshes

theorem createdMatPairs_cartDispose (g : Option SceneGroup) :
    createdMatPairs (cartDisposeEvents g) = [] := by
  cases g with
  | none => rfl
  | some g0 => exact createdMatPairs_groupDispose g0.meshes

theorem meshPairs_fst (ms : List CartoonMesh) :
    ∀ q ∈ meshPairs ms, q.1 ∈ ms.map CartoonMesh.id := by
  intro q hq
  simp only [meshPairs, List.mem_flatMap] at hq
  obtain ⟨m, hm, hq2⟩ := hq
  simp only [List.mem_map] at hq2 ⊢
  obtain ⟨k, _, hk⟩ := hq2
  exact ⟨m, hm, by rw [← hk]⟩

theorem meshPairs_nodup (ms : List CartoonMesh) (h : (ms.map CartoonMesh.id).Nodup) :
    (meshPairs ms).Nodup := by
  induction ms with
  | nil => simp [meshPairs]
  | cons m rest ih =>
      simp only [List.map_cons, List.nodup_cons] at h
      simp only [meshPairs, List.flatMap_cons]
      refine List.Nodup.append ?_ (ih h.2) ?_
      · exact List.Nodup.map (fun a b hab => by simpa using hab) (List.nodup_range _)
      · intro q hq1 hq2
        have h1 : q.1 = m.id := by
          simp only [List.mem_map] at hq1
          obtain ⟨k, _, hk⟩ := hq1
          rw [← hk]
        have h2 := meshPairs_fst rest q hq2
        rw [h1] at h2
        exact h.1 h2

theorem rangeMeshes_ids (n cnt mc : Nat) :
    (((List.range n).map (fun j => ({ id := cnt + j, matCount := mc } : CartoonMesh))).map
      CartoonMesh.id) = (List.range n).map (fun j => cnt + j) := by
  rw [List.map_map]
  rfl

theorem rangeGroup_fresh (n cnt mc : Nat) :
    (∀ i ∈ (((List.range n).map
        (fun j => ({ id := cnt + j, matCount := mc } : CartoonMesh))).map CartoonMesh.id),
      cnt ≤ i ∧ i < cnt + n)
    ∧ ((((List.range n).map
        (fun j => ({ id := cnt + j, matCount := mc } : CartoonMesh))).map CartoonMesh.id).Nodup)
    ∧ ((meshPairs ((List.range n).map
        (fun j => ({ id := cnt + j, matCount := mc } : CartoonMesh)))).Nodup)
    ∧ (∀ q ∈ meshPairs ((List.range n).map
        (fun j => ({ id := cnt + j, matCount := mc } : CartoonMesh))),
      cnt ≤ q.1 ∧ q.1 < cnt + n) := by
  have hnd : ((((List.range n).map
      (fun j => ({ id := cnt + j, matCount := mc } : CartoonMesh))).map CartoonMesh.id).Nodup) := by
    rw [rangeMeshes_ids]
    exact List.Nodup.map (fun a b hab => by omega) (List.nodup_range n)
  refine ⟨?_, hnd, meshPairs_nodup _ hnd, ?_⟩
  · intro i hi
    rw [rangeMeshes_ids] at hi
    simp only [List.mem_map, List.mem_range] at hi
    obtain ⟨j, hj, rfl⟩ := hi
    omega
  · intro q hq
    have h1 := meshPairs_fst _ q hq
    rw [rangeMeshes_ids] at h1
    simp only [List.mem_map, List.mem_range] at h1
    obtain ⟨j, hj, hjq⟩ := h1
    omega

/-- Freshness of one cartoon build: every produced mesh identity lies in
`[cnt, cnt')`, identities and material pairs are distinct. -/
theorem cartoonOf_fresh (scene : Option MolScene) (c : Controls) (cnt : Nat) :
    (∀ i ∈ optGroupIds (cartoonOf scene c cnt).1, cnt ≤ i ∧ i < (cartoonOf scene c cnt).2)
    ∧ cnt ≤ (cartoonOf scene c cnt).2
    ∧ (optGroupIds (cartoonOf scene c cnt).1).Nodup
    ∧ (optGroupPairs (cartoonOf scene c cnt).1).Nodup
    ∧ (∀ q ∈ optGroupPairs (cartoonOf scene c cnt).1,
        cnt ≤ q.1 ∧ q.1 < (cartoonOf scene c cnt).2) := by
  cases scene with
  | none => simp [cartoonOf, optGroupIds, optGroupPairs, meshPairs]
  | some s =>
      by_cases ht : c.representation = .ribbonTube
      · by_cases hrb : s.hasRibbon
        · have hc : cartoonOf (some s) c cnt
              = (some { meshes := (List.range s.ribbonParts).map
                                    (fun j => { id := cnt + j, matCount := 1 }) },
                 cnt + s.ribbonParts) := by
            simp [cartoonOf, ht, makeRibbonMesh, hrb]
          rw [hc]
          have hg := rangeGroup_fresh s.ribbonParts cnt 1
          exact ⟨hg.1, Nat.le_add_right cnt s.ribbonParts, hg.2.1, hg.2.2.1, hg.2.2.2⟩
        · have hc : cartoonOf (some s) c cnt = (none, cnt) := by
            simp [cartoonOf, ht, makeRibbonMesh, hrb]
          rw [hc]
          simp [optGroupIds, optGroupPairs, meshPairs]
      · by_cases hf : c.representation = .ribbonFlat
        · by_cases hrb : s.hasRibbon
          · have hc : cartoonOf (some s) c cnt
                = (some { meshes := (List.range s.ribbonParts).map
                                      (fun j => { id := cnt + j, matCount := 2 }) },
                   cnt + s.ribbonParts) := by
              simp [cartoonOf, ht, hf, makeFlatRibbonMesh, hrb]
            rw [hc]
            have hg := rangeGroup_fresh s.ribbonParts cnt 2
            exact ⟨hg.1, Nat.le_add_right cnt s.ribbonParts, hg.2.1, hg.2.2.1, hg.2.2.2⟩
          · have hc : cartoonOf (some s) c cnt = (none, cnt) := by
              simp [cartoonOf, ht, hf, makeFlatRibbonMesh, hrb]
            rw [hc]
            simp [optGroupIds, optGroupPairs, meshPairs]
        · have hc : cartoonOf (some s) c cnt = (none, cnt) := by
            simp [cartoonOf, ht, hf]
          rw [hc]
          simp [optGroupIds, optGroupPairs, meshPairs]

/-- If an optional group owns no identities it registers no creations. -/
theorem cartCreate_of_ids_nil (g : Option SceneGroup) (h : optGroupIds g = []) :
    cartCreateEvents g = [] := by
  cases g with
  | none => rfl
  | some g0 =>
      have : g0.meshes = [] := List.map_eq_nil_iff.mp h
      simp [cartCreateEvents, groupCreateEvents, this]

/-- Re-establishing the cartoon accounting invariant after a rebuild that
disposes the previously registered group `old`. -/
theorem cartoonInv_establish (log : List Event) (scene : Option MolScene) (c : Controls)
    (cnt : Nat) (old : Option SceneGroup)
    (hperm : (dGeomIds log ++ optGroupIds old).Perm (createdIds log))
    (hpermM : (dMatPairs log ++ optGroupPairs old).Perm (createdMatPairs log))
    (hcnodup : (createdIds log).Nodup)
    (hcmnodup : (createdMatPairs log).Nodup)
    (hclt : ∀ i ∈ createdIds log, i < cnt)
    (hcmlt : ∀ q ∈ createdMatPairs log, q.1 < cnt) :
    (dGeomIds (log ++ (cartCreateEvents (cartoonOf scene c cnt).1 ++ cartDisposeEvents old))
        ++ optGroupIds (cartoonOf scene c cnt).1).Perm
      (createdIds (log ++ (cartCreateEvents (cartoonOf scene c cnt).1 ++ cartDisposeEvents old)))
    ∧ (dMatPairs (log ++ (cartCreateEvents (cartoonOf scene c cnt).1 ++ cartDisposeEvents old))
        ++ optGroupPairs (cartoonOf scene c cnt).1).Perm
      (createdMatPairs (log ++ (cartCreateEvents (cartoonOf scene c cnt).1
        ++ cartDisposeEvents old)))
    ∧ (createdIds (log ++ (cartCreateEvents (cartoonOf scene c cnt).1
        ++ cartDisposeEvents old))).Nodup
    ∧ (createdMatPairs (log ++ (cartCreateEvents (cartoonOf scene c cnt).1
        ++ cartDisposeEvents old))).Nodup
    ∧ (∀ i ∈ createdIds (log ++ (cartCreateEvents (cartoonOf scene c cnt).1
        ++ cartDisposeEvents old)), i < (cartoonOf scene c cnt).2)
    ∧ (∀ q ∈ createdMatPairs (log ++ (cartCreateEvents (cartoonOf scene c cnt).1
        ++ cartDisposeEvents old)), q.1 < (cartoonOf scene c cnt).2) := by
  have hfresh := cartoonOf_fresh scene c cnt
  have hCL : createdIds (log ++ (cartCreateEvents (cartoonOf scene c cnt).1
      ++ cartDisposeEvents old)) = createdIds log ++ optGroupIds (cartoonOf scene c cnt).1 := by
    rw [createdIds_append, createdIds_append, createdIds_cartCreate, createdIds_cartDispose,
      List.append_nil]
  have hGL : dGeomIds (log ++ (cartCreateEvents (cartoonOf scene c cnt).1
      ++ cartDisposeEvents old)) = dGeomIds log ++ optGroupIds old := by
    rw [dGeomIds_append, dGeomIds_append, dGeomIds_cartCreate, dGeomIds_cartDispose,
      List.nil_append]
  have hML : dMatPairs (log ++ (cartCreateEvents (cartoonOf scene c cnt).1
      ++ cartDisposeEvents old)) = dMatPairs log ++ optGroupPairs old := by
    rw [dMatPairs_append, dMatPairs_append, dMatPairs_cartCreate, dMatPairs_cartDispose,
      List.nil_append]
  have hCML : createdMatPairs (log ++ (cartCreateEvents (cartoonOf scene c cnt).1
      ++ cartDisposeEvents old))
      = createdMatPairs log ++ optGroupPairs (cartoonOf scene c cnt).1 := by
    rw [createdMatPairs_append, createdMatPairs_append, createdMatPairs_cartCreate,
      createdMatPairs_cartDispose, List.append_nil]
  refine ⟨?_, ?_, ?_, ?_, ?_, ?_⟩
  · rw [hCL, hGL]
    exact hperm.append_right (optGroupIds (cartoonOf scene c cnt).1)
  · rw [hCML, hML]
    exact hpermM.append_right (optGroupPairs (cartoonOf scene c cnt).1)
  · rw [hCL]
    refine hcnodup.append hfresh.2.2.1 ?_
    intro a ha hb
    have h1 := hclt a ha
    have h2 := (hfresh.1 a hb).1
    omega
  · rw [hCML]
    refine hcmnodup.append hfresh.2.2.2.1 ?_
    intro q hq1 hq2
    have h1 := hcmlt q hq1
    have h2 := (hfresh.2.2.2.2 q hq2).1
    omega
  · rw [hCL]
    intro i hi
    rcases List.mem_append.mp hi with hi | hi
    · have h1 := hclt i hi
      have h2 := hfresh.2.1
      omega
    · exact (hfresh.1 i hi).2
  · rw [hCML]
    intro q hq
    rcases List.mem_append.mp hq with hq | hq
    · have h1 := hcmlt q hq
      have h2 := hfresh.2.1
      omega
    · exact (hfresh.2.2.2.2 q hq).2

theorem cartoonLiveIds_reg (s : CartoonState) (w : Option SceneGroup) (h : s.reg = some w) :
    cartoonLiveIds s = optGroupIds w := by
  cases w with
  | none => simp [cartoonLiveIds, h, optGroupIds]
  | some g => simp [cartoonLiveIds, h, optGroupIds]

theorem cartoonLivePairs_reg (s : CartoonState) (w : Option SceneGroup) (h : s.reg = some w) :
    cartoonLivePairs s = optGroupPairs w := by
  cases w with
  | none => simp [cartoonLivePairs, h, optGroupPairs]
  | some g => simp [cartoonLivePairs, h, optGroupPairs]

theorem optGroupPairs_of_ids_nil (g : Option SceneGroup) (h : optGroupIds g = []) :
    optGroupPairs g = [] := by
  cases g with
  | none => rfl
  | some g0 =>
      have hms : g0.meshes = [] := List.map_eq_nil_iff.mp h
      simp [optGroupPairs, meshPairs, hms]

/-- One cartoon render pass preserves the accounting invariant. -/
theorem cartoonInv_step (s : CartoonState) (log : List Event) (scene : Option MolScene)
    (c : Controls) (h : CartoonInv s log) :
    CartoonInv (renderCartoon s scene c).1 (log ++ (renderCartoon s scene c).2.2) := by
  obtain ⟨⟨hlt, hnd, hcoh⟩, hperm, hpermM, hcnodup, hcmnodup, hclt, hcmlt⟩ := h
  have hfresh := cartoonOf_fresh scene c s.cnt
  cases hm : s.memo with
  | none =>
      cases hr : s.reg with
      | some w => rw [hm, hr] at hcoh; simp at hcoh
      | none =>
          have hlive : cartoonLiveIds s = [] := by simp [cartoonLiveIds, hr]
          have hlivep : cartoonLivePairs s = [] := by simp [cartoonLivePairs, hr]
          have hrh : renderCartoon s scene c
              = ({ memo := some (cartoonDepsOf scene c, (cartoonOf scene c s.cnt).1),
                   reg := some (cartoonOf scene c s.cnt).1,
                   cnt := (cartoonOf scene c s.cnt).2 },
                 (cartoonOf scene c s.cnt).1,
                 cartCreateEvents (cartoonOf scene c s.cnt).1) := by
            simp [renderCartoon, hm, hr]
          rw [hrh]
          rw [hlive] at hperm
          rw [hlivep] at hpermM
          have hest := cartoonInv_establish log scene c s.cnt none
            (by simpa [optGroupIds] using hperm) (by simpa [optGroupPairs] using hpermM)
            hcnodup hcmnodup hclt hcmlt
          simp only [show cartDisposeEvents none = [] from rfl, List.append_nil] at hest
          refine ⟨⟨?_, ?_, ?_⟩, ?_, ?_, hest.2.2.1, hest.2.2.2.1, hest.2.2.2.2.1,
            hest.2.2.2.2.2⟩
          · intro i hi
            rw [cartoonLiveIds_reg _ _ rfl] at hi
            exact (hfresh.1 i hi).2
          · rw [cartoonLiveIds_reg _ _ rfl]
            exact hfresh.2.2.1
          · exact ⟨rfl, fun i hi => (hfresh.1 i hi).2⟩
          · rw [cartoonLiveIds_reg _ _ rfl]
            exact hest.1
          · rw [cartoonLivePairs_reg _ _ rfl]
            exact hest.2.1
  | some p =>
      cases hr : s.reg with
      | none => rw [hm, hr] at hcoh; simp at hcoh
      | some w =>
          rw [hm, hr] at hcoh
          have hlive := cartoonLiveIds_reg s w hr
          have hlivep := cartoonLivePairs_reg s w hr
          by_cases hd : p.1 = cartoonDepsOf scene c
          · -- memo hit
            rw [hcoh.1] at hlive hlivep
            have hrh : renderCartoon s scene c
                = ({ memo := some (cartoonDepsOf scene c, p.2), reg := some p.2, cnt := s.cnt },
                   p.2, []) := by
              simp [renderCartoon, hm, hr, hd, hcoh.1]
            rw [hrh]
            simp only [List.append_nil]
            refine ⟨⟨?_, ?_, ?_⟩, ?_, ?_, hcnodup, hcmnodup, hclt, hcmlt⟩
            · intro i hi
              rw [cartoonLiveIds_reg _ _ rfl] at hi
              apply hlt i
              rw [hlive]
              exact hi
            · rw [cartoonLiveIds_reg _ _ rfl]
              rw [hlive] at hnd
              exact hnd
            · exact ⟨rfl, hcoh.2⟩
            · rw [cartoonLiveIds_reg _ _ rfl]
              rw [hlive] at hperm
              exact hperm
            · rw [cartoonLivePairs_reg _ _ rfl]
              rw [hlivep] at hpermM
              exact hpermM
          · by_cases hk : w = (cartoonOf scene c s.cnt).1
            · -- rebuild producing the same reference: both sides own nothing
              have hwids : optGroupIds w = optGroupIds (cartoonOf scene c s.cnt).1 := by rw [hk]
              have hids : optGroupIds (cartoonOf scene c s.cnt).1 = [] := by
                cases hB : optGroupIds (cartoonOf scene c s.cnt).1 with
                | nil => rfl
                | cons x xs =>
                    exfalso
                    have hxB : x ∈ optGroupIds (cartoonOf scene c s.cnt).1 := by
                      rw [hB]; exact List.mem_cons_self x xs
                    have hxw : x ∈ cartoonLiveIds s := by rw [hlive, hwids]; exact hxB
                    have h1 := (hfresh.1 x hxB).1
                    have h2 := hlt x hxw
                    omega
              have hwnil : optGroupIds w = [] := by rw [hwids, hids]
              have hce : cartCreateEvents (cartoonOf scene c s.cnt).1 = [] :=
                cartCreate_of_ids_nil _ hids
              have hrh : renderCartoon s scene c
                  = ({ memo := some (cartoonDepsOf scene c, (cartoonOf scene c s.cnt).1),
                       reg := some (cartoonOf scene c s.cnt).1,
                       cnt := (cartoonOf scene c s.cnt).2 },
                     (cartoonOf scene c s.cnt).1, []) := by
                simp [renderCartoon, hm, hr, hd, hk, hce]
              rw [hrh]
              simp only [List.append_nil]
              refine ⟨⟨?_, ?_, ?_⟩, ?_, ?_, hcnodup, hcmnodup, ?_, ?_⟩
              · intro i hi
                rw [cartoonLiveIds_reg _ _ rfl, hids] at hi
                simp at hi
              · rw [cartoonLiveIds_reg _ _ rfl, hids]
                exact List.nodup_nil
              · refine ⟨rfl, ?_⟩
                intro i hi
                rw [hids] at hi
                simp at hi
              · rw [cartoonLiveIds_reg _ _ rfl, hids]
                rw [hlive, hwnil] at hperm
                exact hperm
              · rw [cartoonLivePairs_reg _ _ rfl, optGroupPairs_of_ids_nil _ hids]
                rw [hlivep, optGroupPairs_of_ids_nil _ hwnil] at hpermM
                exact hpermM
              · intro i hi
                show i < (cartoonOf scene c s.cnt).2
                have h1 := hclt i hi
                have h2 := hfresh.2.1
                omega
              · intro q hq
                show q.1 < (cartoonOf scene c s.cnt).2
                have h1 := hcmlt q hq
                have h2 := hfresh.2.1
                omega
            · -- rebuild with cleanup of the previous group
              have hrh : renderCartoon s scene c
                  = ({ memo := some (cartoonDepsOf scene c, (cartoonOf scene c s.cnt).1),
                       reg := some (cartoonOf scene c s.cnt).1,
                       cnt := (cartoonOf scene c s.cnt).2 },
                     (cartoonOf scene c s.cnt).1,
                     cartCreateEvents (cartoonOf scene c s.cnt).1 ++ cartDisposeEvents w) := by
                simp [renderCartoon, hm, hr, hd, hk]
              rw [hrh]
              rw [hlive] at hperm
              rw [hlivep] at hpermM
              have hest := cartoonInv_establish log scene c s.cnt w hperm hpermM hcnodup
                hcmnodup hclt hcmlt
              refine ⟨⟨?_, ?_, ?_⟩, ?_, ?_, hest.2.2.1, hest.2.2.2.1, hest.2.2.2.2.1,
                hest.2.2.2.2.2⟩
              · intro i hi
                rw [cartoonLiveIds_reg _ _ rfl] at hi
                exact (hfresh.1 i hi).2
              · rw [cartoonLiveIds_reg _ _ rfl]
                exact hfresh.2.2.1
              · exact ⟨rfl, fun i hi => (hfresh.1 i hi).2⟩
              · rw [cartoonLiveIds_reg _ _ rfl]
                exact hest.1
              · rw [cartoonLivePairs_reg _ _ rfl]
                exact hest.2.1

theorem runHook_acc (l : List (Option MolScene × SceneBuildOptions)) :
    ∀ (s : HookState) (a : List Event),
    (l.foldl (fun acc inp =>
      let r := renderHook acc.1 inp.1 inp.2
      (r.1, acc.2 ++ r.2.2)) (s, a))
      = ((runHook s l).1, a ++ (runHook s l).2) := by
  induction l with
  | nil => intro s a; simp [runHook]
  | cons x xs ih =>
      intro s a
      show (xs.foldl _ ((renderHook s x.1 x.2).1, a ++ (renderHook s x.1 x.2).2.2)) = _
      rw [ih]
      have h2 : runHook s (x :: xs)
          = ((runHook (renderHook s x.1 x.2).1 xs).1,
             (renderHook s x.1 x.2).2.2 ++ (runHook (renderHook s x.1 x.2).1 xs).2) := by
        show (xs.foldl _ ((renderHook s x.1 x.2).1, [] ++ (renderHook s x.1 x.2).2.2)) = _
        rw [ih]
        simp
      rw [h2]
      simp [List.append_assoc]

theorem runHook_cons (s : HookState) (x : Option MolScene × SceneBuildOptions)
    (xs : List (Option MolScene × SceneBuildOptions)) :
    runHook s (x :: xs)
      = ((runHook (renderHook s x.1 x.2).1 xs).1,
         (renderHook s x.1 x.2).2.2 ++ (runHook (renderHook s x.1 x.2).1 xs).2) := by
  show (xs.foldl _ ((renderHook s x.1 x.2).1, [] ++ (renderHook s x.1 x.2).2.2)) = _
  rw [runHook_acc]
  simp

theorem hookInv_init : HookInv initHookState [] := by
  refine ⟨⟨?_, ?_, ?_⟩, ?_, ?_, ?_, ?_, ?_⟩ <;>
    simp [initHookState, liveIds, createdIds, dGeomIds, dMatPairs, createdMatPairs]

theorem hookInv_run (l : List (Option MolScene × SceneBuildOptions)) :
    ∀ (s : HookState) (log : List Event),
    HookInv s log → HookInv (runHook s l).1 (log ++ (runHook s l).2) := by
  induction l with
  | nil => intro s log h; simpa [runHook] using h
  | cons x xs ih =>
      intro s log h
      have h1 := hookInv_step s log x.1 x.2 h
      have h2 := ih (renderHook s x.1 x.2).1 (log ++ (renderHook s x.1 x.2).2.2) h1
      rw [runHook_cons]
      simpa [List.append_assoc] using h2

theorem dGeomIds_hookUnmount (s : HookState) : dGeomIds (hookUnmount s) = liveIds s := by
  cases hr : s.reg with
  | none => simp [hookUnmount, liveIds, hr, dGeomIds]
  | some w =>
      simp only [hookUnmount, liveIds, hr]
      exact dGeomIds_disposeBlock w.ids

theorem dMatPairs_hookUnmount (s : HookState) :
    dMatPairs (hookUnmount s) = (liveIds s).map (fun i => (i, 0)) := by
  cases hr : s.reg with
  | none => simp [hookUnmount, liveIds, hr, dMatPairs]
  | some w =>
      simp only [hookUnmount, liveIds, hr]
      exact dMatPairs_disposeBlock w.ids

theorem createdIds_hookUnmount (s : HookState) : createdIds (hookUnmount s) = [] := by
  cases hr : s.reg with
  | none => simp [hookUnmount, hr, createdIds]
  | some w =>
      simp only [hookUnmount, hr]
      exact createdIds_disposeBlock w.ids

theorem createdMatPairs_hookUnmount (s : HookState) : createdMatPairs (hookUnmount s) = [] := by
  cases hr : s.reg with
  | none => simp [hookUnmount, hr, createdMatPairs]
  | some w =>
      simp only [hookUnmount, hr]
      exact createdMatPairs_disposeBlock w.ids

theorem runCartoon_acc (l : List (Option MolScene × Controls)) :
    ∀ (s : CartoonState) (a : List Event),
    (l.foldl (fun acc inp =>
      let r := renderCartoon acc.1 inp.1 inp.2
      (r.1, acc.2 ++ r.2.2)) (s, a))
      = ((runCartoon s l).1, a ++ (runCartoon s l).2) := by
  induction l with
  | nil => intro s a; simp [runCartoon]
  | cons x xs ih =>
      intro s a
      show (xs.foldl _ ((renderCartoon s x.1 x.2).1, a ++ (renderCartoon s x.1 x.2).2.2)) = _
      rw [ih]
      have h2 : runCartoon s (x :: xs)
          = ((runCartoon (renderCartoon s x.1 x.2).1 xs).1,
             (renderCartoon s x.1 x.2).2.2 ++ (runCartoon (renderCartoon s x.1 x.2).1 xs).2) := by
        show (xs.foldl _ ((renderCartoon s x.1 x.2).1, [] ++ (renderCartoon s x.1 x.2).2.2)) = _
        rw [ih]
        simp
      rw [h2]
      simp [List.append_assoc]

theorem runCartoon_cons (s : CartoonState) (x : Option MolScene × Controls)
    (xs : List (Option MolScene × Controls)) :
    runCartoon s (x :: xs)
      = ((runCartoon (renderCartoon s x.1 x.2).1 xs).1,
         (renderCartoon s x.1 x.2).2.2 ++ (runCartoon (renderCartoon s x.1 x.2).1 xs).2) := by
  show (xs.foldl _ ((renderCartoon s x.1 x.2).1, [] ++ (renderCartoon s x.1 x.2).2.2)) = _
  rw [runCartoon_acc]
  simp

theorem cartoonInv_init : CartoonInv initCartoonState [] := by
  refine ⟨⟨?_, ?_, ?_⟩, ?_, ?_, ?_, ?_, ?_, ?_⟩ <;>
    simp [initCartoonState, cartoonLiveIds, cartoonLivePairs, createdIds, dGeomIds,
      dMatPairs, createdMatPairs]

theorem cartoonInv_run (l : List (Option MolScene × Controls)) :
    ∀ (s : CartoonState) (log : List Event),
    CartoonInv s log → CartoonInv (runCartoon s l).1 (log ++ (runCartoon s l).2) := by
  induction l with
  | nil => intro s log h; simpa [runCartoon] using h
  | cons x xs ih =>
      intro s log h
      have h1 := cartoonInv_step s log x.1 x.2 h
      have h2 := ih (renderCartoon s x.1 x.2).1 (log ++ (renderCartoon s x.1 x.2).2.2) h1
      rw [runCartoon_cons]
      simpa [List.append_assoc] using h2

theorem dGeomIds_cartoonUnmount (s : CartoonState) :
    dGeomIds (cartoonUnmount s) = cartoonLiveIds s := by
  cases hr : s.reg with
  | none => simp [cartoonUnmount, cartoonLiveIds, hr, dGeomIds]
  | some w =>
      simp only [cartoonUnmount, hr]
      rw [dGeomIds_cartDispose, cartoonLiveIds_reg s w hr]

theorem dMatPairs_cartoonUnmount (s : CartoonState) :
    dMatPairs (cartoonUnmount s) = cartoonLivePairs s := by
  cases hr : s.reg with
  | none => simp [cartoonUnmount, cartoonLivePairs, hr, dMatPairs]
  | some w =>
      simp only [cartoonUnmount, hr]
      rw [dMatPairs_cartDispose, cartoonLivePairs_reg s w hr]

theorem createdIds_cartoonUnmount (s : CartoonState) : createdIds (cartoonUnmount s) = [] := by
  cases hr : s.reg with
  | none => simp [cartoonUnmount, hr, createdIds]
  | some w =>
      simp only [cartoonUnmount, hr]
      exact createdIds_cartDispose w

theorem createdMatPairs_cartoonUnmount (s : CartoonState) :
    createdMatPairs (cartoonUnmount s) = [] := by
  cases hr : s.reg with
  | none => simp [cartoonUnmount, hr, createdMatPairs]
  | some w =>
      simp only [cartoonUnmount, hr]
      exact createdMatPairs_cartDispose w

theorem count_pair0 (l : List Nat) (i : Nat) :
    (l.map (fun j => (j, 0))).count (i, (0 : Nat)) = l.count i := by
  induction l with
  | nil => rfl
  | cons x xs ih =>
      by_cases hx : i = x
      · subst hx
        simp [List.count_cons, ih]
      · simp [List.count_cons, hx, ih, Prod.ext_iff]

theorem disposeGeom_not_mem_createEvents (o : Objects) (i : Nat) :
    Event.disposeGeom i ∉ createEvents o := by
  intro h
  simp only [createEvents, List.mem_map] at h
  obtain ⟨j, _, hj⟩ := h
  simp at hj

theorem mem_ids_of_disposeGeom_disposeEvents (w : Objects) (i : Nat)
    (h : Event.disposeGeom i ∈ disposeEvents w) : i ∈ w.ids := by
  simp only [disposeEvents, List.mem_flatMap] at h
  obtain ⟨j, hj, hmem⟩ := h
  simp only [List.mem_cons, List.mem_singleton] at hmem
  rcases hmem with hmem | hmem
  · cases hmem
    exact hj
  · simp at hmem

theorem mem_createdIds_of_create (l : List Event) (i mc : Nat)
    (h : Event.create i mc ∈ l) : i ∈ createdIds l :=
  List.mem_filterMap.mpr ⟨Event.create i mc, h, rfl⟩

theorem mem_createdMatPairs_of_create (l : List Event) (i mc k : Nat)
    (h : Event.create i mc ∈ l) (hk : k < mc) : (i, k) ∈ createdMatPairs l := by
  simp only [createdMatPairs, List.mem_flatMap]
  refine ⟨Event.create i mc, h, ?_⟩
  simp only [List.mem_map, List.mem_range]
  exact ⟨k, hk, rfl⟩

/-- A render pass never disposes a primitive it keeps: every geometry
disposal of the pass targets an identity absent from the returned primitive
set; and a pass whose memo dependencies are unchanged emits no events at
all. -/
theorem renderHook_no_kept_dispose (s : HookState) (scene : Option MolScene)
    (o : SceneBuildOptions) (hwf : HookWF s) :
    (∀ i, Event.disposeGeom i ∈ (renderHook s scene o).2.2 →
      i ∉ ((renderHook s scene o).2.1).ids)
    ∧ (∀ p, s.memo = some p → p.1 = depsOf scene o → (renderHook s scene o).2.2 = []) := by
  obtain ⟨hlt, hnd, hcoh⟩ := hwf
  have hfresh := buildObjects_fresh scene o s.cnt
  cases hm : s.memo with
  | none =>
      cases hr : s.reg with
      | some w => rw [hm, hr] at hcoh; simp at hcoh
      | none =>
          have hrh : renderHook s scene o
              = ({ memo := some (depsOf scene o, (buildObjects scene o s.cnt).1),
                   reg := some (buildObjects scene o s.cnt).1,
                   cnt := (buildObjects scene o s.cnt).2 },
                 (buildObjects scene o s.cnt).1,
                 createEvents (buildObjects scene o s.cnt).1) := by
            simp [renderHook, hm, hr]
          rw [hrh]
          constructor
          · intro i hin
            exact absurd hin (disposeGeom_not_mem_createEvents _ i)
          · intro p hp
            exact absurd hp (by simp)
  | some p =>
      cases hr : s.reg with
      | none => rw [hm, hr] at hcoh; simp at hcoh
      | some w =>
          rw [hm, hr] at hcoh
          have hlive : liveIds s = w.ids := by simp [liveIds, hr]
          by_cases hd : p.1 = depsOf scene o
          · have hrh : renderHook s scene o
                = ({ memo := some (depsOf scene o, p.2), reg := some w, cnt := s.cnt },
                   p.2, []) := by
              simp [renderHook, hm, hr, hd, hcoh.1]
            rw [hrh]
            exact ⟨fun i hin => absurd hin (List.not_mem_nil _), fun _ _ _ => rfl⟩
          · constructor
            · intro i hin
              by_cases hk : effKey w = effKey (buildObjects scene o s.cnt).1
              · have hwids : w.ids = (buildObjects scene o s.cnt).1.ids := ids_eq_of_effKey hk
                have hids : (buildObjects scene o s.cnt).1.ids = [] := by
                  cases hB : (buildObjects scene o s.cnt).1.ids with
                  | nil => rfl
                  | cons x xs =>
                      exfalso
                      have hxB : x ∈ (buildObjects scene o s.cnt).1.ids := by
                        rw [hB]; exact List.mem_cons_self x xs
                      have hxw : x ∈ liveIds s := by rw [hlive, hwids]; exact hxB
                      have h1 := (hfresh.1 x hxB).1
                      have h2 := hlt x hxw
                      omega
                have hce : createEvents (buildObjects scene o s.cnt).1 = [] := by
                  unfold createEvents
                  rw [hids]
                  rfl
                have hrh : renderHook s scene o
                    = ({ memo := some (depsOf scene o, (buildObjects scene o s.cnt).1),
                         reg := some w, cnt := (buildObjects scene o s.cnt).2 },
                       (buildObjects scene o s.cnt).1, []) := by
                  simp [renderHook, hm, hr, hd, hk, hce]
                rw [hrh] at hin
                exact absurd hin (List.not_mem_nil _)
              · have hrh : renderHook s scene o
                    = ({ memo := some (depsOf scene o, (buildObjects scene o s.cnt).1),
                         reg := some (buildObjects scene o s.cnt).1,
                         cnt := (buildObjects scene o s.cnt).2 },
                       (buildObjects scene o s.cnt).1,
                       createEvents (buildObjects scene o s.cnt).1 ++ disposeEvents w) := by
                  simp [renderHook, hm, hr, hd, hk]
                rw [hrh] at hin ⊢
                intro hiB
                rcases List.mem_append.mp hin with hin | hin
                · exact absurd hin (disposeGeom_not_mem_createEvents _ i)
                · have hiw : i ∈ w.ids := mem_ids_of_disposeGeom_disposeEvents w i hin
                  have h1 := hlt i (by rw [hlive]; exact hiw)
                  have h2 := (hfresh.1 i hiB).1
                  omega
            · intro p2 hp2 hd2
              injection hp2 with hpe
              subst hpe
              exact absurd hd2 hd

theorem count_pairs_congr (l : List (Nat × Nat)) (q : Nat × Nat) :
    l.count q = @List.count (Nat × Nat) instBEqOfDecidableEq q l := by
  induction l with
  | nil => rfl
  | cons x xs ih =>
      rw [List.count_cons, @List.count_cons _ instBEqOfDecidableEq, ih]
      by_cases h : q = x
      · subst h
        simp [instBEqOfDecidableEq]
      · have hx : ¬ x = q := fun hh => h hh.symm
        simp [instBEqOfDecidableEq, hx]

/-- C2: over any session of `useSceneObjects` render passes followed by
unmount, geometry disposals are a permutation of creations and material
disposals a permutation of the created material slots — every created
primitive's geometry and material are released exactly once; a render pass
never disposes a primitive whose identity it keeps, and a pass whose memo
dependencies are unchanged emits no create or dispose events at all; the
cartoon group follows the same contract, with disposal releasing the
geometry and every material slot of every mesh of the composite group
exactly once. -/
theorem scene_cache_disposes_exactly_once
    (l : List (Option MolScene × SceneBuildOptions))
    (lc : List (Option MolScene × Controls))
    (s : HookState) (scene : Option MolScene) (o : SceneBuildOptions) :
    ((dGeomIds (hookFullLog l)).Perm (createdIds (hookFullLog l)))
    ∧ ((dMatPairs (hookFullLog l)).Perm (createdMatPairs (hookFullLog l)))
    ∧ (∀ i ∈ createdIds (hookFullLog l),
        (dGeomIds (hookFullLog l)).count i = 1
        ∧ (dMatPairs (hookFullLog l)).count (i, 0) = 1)
    ∧ (HookWF s → ∀ i, Event.disposeGeom i ∈ (renderHook s scene o).2.2 →
        i ∉ ((renderHook s scene o).2.1).ids)
    ∧ (HookWF s → ∀ p, s.memo = some p → p.1 = depsOf scene o →
        (renderHook s scene o).2.2 = [])
    ∧ ((dGeomIds (cartoonFullLog lc)).Perm (createdIds (cartoonFullLog lc)))
    ∧ ((dMatPairs (cartoonFullLog lc)).Perm (createdMatPairs (cartoonFullLog lc)))
    ∧ (∀ i mc, Event.create i mc ∈ cartoonFullLog lc →
        (dGeomIds (cartoonFullLog lc)).count i = 1
        ∧ ∀ k < mc, (dMatPairs (cartoonFullLog lc)).count (i, k) = 1) := by
  have hinv0 := hookInv_run l initHookState [] hookInv_init
  rw [List.nil_append] at hinv0
  obtain ⟨⟨hlt, hnd, hcoh⟩, hperm, hcnodup, hclt, hmat, hcmat⟩ := hinv0
  have hGF : dGeomIds (hookFullLog l)
      = dGeomIds (runHook initHookState l).2 ++ liveIds (runHook initHookState l).1 := by
    unfold hookFullLog
    rw [dGeomIds_append, dGeomIds_hookUnmount]
  have hCF : createdIds (hookFullLog l) = createdIds (runHook initHookState l).2 := by
    unfold hookFullLog
    rw [createdIds_append, createdIds_hookUnmount, List.append_nil]
  have hMF : dMatPairs (hookFullLog l)
      = dMatPairs (runHook initHookState l).2
        ++ (liveIds (runHook initHookState l).1).map (fun i => (i, 0)) := by
    unfold hookFullLog
    rw [dMatPairs_append, dMatPairs_hookUnmount]
  have hCMF : createdMatPairs (hookFullLog l)
      = createdMatPairs (runHook initHookState l).2 := by
    unfold hookFullLog
    rw [createdMatPairs_append, createdMatPairs_hookUnmount, List.append_nil]
  have cinv0 := cartoonInv_run lc initCartoonState [] cartoonInv_init
  rw [List.nil_append] at cinv0
  obtain ⟨⟨clt, cnd, ccoh⟩, cperm, cpermM, ccnodup, ccmnodup, cclt, ccmlt⟩ := cinv0
  have cGF : dGeomIds (cartoonFullLog lc)
      = dGeomIds (runCartoon initCartoonState lc).2
        ++ cartoonLiveIds (runCartoon initCartoonState lc).1 := by
    unfold cartoonFullLog
    rw [dGeomIds_append, dGeomIds_cartoonUnmount]
  have cCF : createdIds (cartoonFullLog lc) = createdIds (runCartoon initCartoonState lc).2 := by
    unfold cartoonFullLog
    rw [createdIds_append, createdIds_cartoonUnmount, List.append_nil]
  have cMF : dMatPairs (cartoonFullLog lc)
      = dMatPairs (runCartoon initCartoonState lc).2
        ++ cartoonLivePairs (runCartoon initCartoonState lc).1 := by
    unfold cartoonFullLog
    rw [dMatPairs_append, dMatPairs_cartoonUnmount]
  have cCMF : createdMatPairs (cartoonFullLog lc)
      = createdMatPairs (runCartoon initCartoonState lc).2 := by
    unfold cartoonFullLog
    rw [createdMatPairs_append, createdMatPairs_cartoonUnmount, List.append_nil]
  refine ⟨?_, ?_, ?_, ?_, ?_, ?_, ?_, ?_⟩
  · rw [hGF, hCF]
    exact hperm
  · rw [hMF, hCMF, hmat, hcmat, ← List.map_append]
    exact hperm.map _
  · intro i hi
    rw [hCF] at hi
    have hc1 : (createdIds (runHook initHookState l).2).count i = 1 :=
      List.count_eq_one_of_mem hcnodup hi
    constructor
    · rw [hGF, hperm.count_eq]
      exact hc1
    · rw [hMF, hmat, ← List.map_append, count_pair0, hperm.count_eq]
      exact hc1
  · intro hwf i hin
    exact (renderHook_no_kept_dispose s scene o hwf).1 i hin
  · intro hwf p hp hd
    exact (renderHook_no_kept_dispose s scene o hwf).2 p hp hd
  · rw [cGF, cCF]
    exact cperm
  · rw [cMF, cCMF]
    exact cpermM
  · intro i mc hmem
    have hmem2 : Event.create i mc ∈ (runCartoon initCartoonState lc).2 := by
      unfold cartoonFullLog at hmem
      rcases List.mem_append.mp hmem with hmem | hmem
      · exact hmem
      · exfalso
        have hmm := mem_createdIds_of_create _ i mc hmem
        rw [createdIds_cartoonUnmount] at hmm
        simp at hmm
    have hiC : i ∈ createdIds (runCartoon initCartoonState lc).2 :=
      mem_createdIds_of_create _ i mc hmem2
    have hc1 : (createdIds (runCartoon initCartoonState lc).2).count i = 1 :=
      List.count_eq_one_of_mem ccnodup hiC
    constructor
    · rw [cGF, cperm.count_eq]
      exact hc1
    · intro k hk
      have hpC : (i, k) ∈ createdMatPairs (runCartoon initCartoonState lc).2 :=
        mem_createdMatPairs_of_create _ i mc k hmem2 hk
      rw [count_pairs_congr, cMF, cpermM.count_eq]
      exact List.count_eq_one_of_mem ccmnodup hpC

/-- Witness for C2: a concrete session — geometry and material of primitive
0 released exactly once including unmount; the rebuild in `c1Pass2` disposes
nothing it keeps; a pass with reference-stable dependencies emits no events;
each flat-ribbon mesh's two material slots are each released exactly once. -/
theorem scene_cache_disposes_exactly_once_w :
    (dGeomIds (hookFullLog [(some demoScene, sceneBuildOptsOf demoControls 100)])).count 0 = 1
    ∧ (dMatPairs (hookFullLog [(some demoScene, sceneBuildOptsOf demoControls 100)])).count
        (0, 0) = 1
    ∧ (0 : Nat) ∉ c1Pass2.2.1.ids
    ∧ (renderHook c1Pass1.1 (some demoScene) (sceneBuildOptsOf demoControls 100)).2.2 = []
    ∧ (dGeomIds (cartoonFullLog
        [(some demoScene, { demoControls with representation := .ribbonFlat })])).count 0 = 1
    ∧ (dMatPairs (cartoonFullLog
        [(some demoScene, { demoControls with representation := .ribbonFlat })])).count
        (0, 1) = 1 := by
  have h := scene_cache_disposes_exactly_once
    [(some demoScene, sceneBuildOptsOf demoControls 100)]
    [(some demoScene, { demoControls with representation := .ribbonFlat })]
    c1Pass1.1 (some demoScene) (sceneBuildOptsOf demoControls 200)
  have h2 := scene_cache_disposes_exactly_once
    [(some demoScene, sceneBuildOptsOf demoControls 100)]
    [(some demoScene, { demoControls with representation := .ribbonFlat })]
    c1Pass1.1 (some demoScene) (sceneBuildOptsOf demoControls 100)
  have hwf : HookWF c1Pass1.1 :=
    (hookInv_step initHookState [] (some demoScene)
      (sceneBuildOptsOf demoControls 100) hookInv_init).1
  have hcounts := h.2.2.1 0 (by decide)
  have hkept := h.2.2.2.1 hwf 0 (by decide)
  have hhit := h2.2.2.2.2.1 hwf
    (depsOf (some demoScene) (sceneBuildOptsOf demoControls 100), c1Pass1.2.1)
    (by decide) (by decide)
  have hcart := h.2.2.2.2.2.2.2 0 2 (by decide)
  exact ⟨hcounts.1, hcounts.2, hkept, hhit, hcart.1, hcart.2 1 (by decide)⟩

end PV
